import Mathlib

/-!
Verification of the Spreadtrum/Unisoc battery Charger Manager
(`drivers/power/supply/charger-manager.c`) against its natural-language
specification.  The driver's decision logic is shallowly embedded: C
functions become Lean functions over explicit state records, hardware
reads/writes become oracle inputs and effect traces, machine integers
become `Int`/`Nat` with C truncating division (`Int.tdiv`) and explicit
`% 2^32` where 32-bit wrap-around matters.
-/

namespace ChargerManager

/-! ## Constants from charger-manager.c -/

def CM_CAP_FULL_PERCENT : Int := 1000

def CM_CAP_MAGIC_NUM : Int := 0x5A5AA5A5

def CM_LOW_TEMP_REGION : Int := 100

def CM_LOW_TEMP_SHUTDOWN_VALTAGE : Int := 3200000

def CM_CAP_ONE_PERCENT : Int := 10

def CM_HCAP_DECREASE_STEP : Int := 8

def CM_HCAP_THRESHOLD : Int := 955

def CM_FAST_CHARGE_ENABLE_BATTERY_VOLTAGE : Int := 3400000

def CM_FAST_CHARGE_ENABLE_COUNT : Int := 2

def CM_FAST_CHARGE_VOLTAGE_9V : Int := 9000000

def CM_FAST_CHARGE_VOLTAGE_5V : Int := 5000000

def CM_TRACK_CAPACITY_KEY0 : Nat := 0x20160726

def CM_TRACK_CAPACITY_KEY1 : Nat := 0x15211517

/-- C integer division truncates toward zero, which is `Int.tdiv`. -/
def cdiv (a b : Int) : Int := a.tdiv b

/-- Kernel `DIV_ROUND_CLOSEST(x, 10)`: `(x + 5) / 10` when the signs of the
numerator and the (positive) divisor agree, `(x - 5) / 10` otherwise, with
C truncating division. -/
def divRoundClosest10 (x : Int) : Int :=
  if x > 0 then cdiv (x + 5) 10 else cdiv (x - 5) 10

/-! ## C9: capacity-tracker persistent file (cm_track_capacity_work)

The file stores two 32-bit words `capacity ^ KEY0` and `capacity ^ KEY1`
(lines 3629-3630); on reading, the INIT branch decodes both words and
rejects the file when the decoded values disagree (lines 3616-3621). -/

/-- Tracker state machine values (CAP_TRACK_* in the driver). -/
inductive CapTrackState where
  | init
  | idle
  | updating
  | done
  | err
  deriving DecidableEq, Repr

/-- Encoding performed by the CAP_TRACK_DONE branch before writing the
persistent file: `file_buf[0] = cap ^ KEY0`, `file_buf[1] = cap ^ KEY1`. -/
def trackEncode (capacity : Nat) : Nat × Nat :=
  (capacity ^^^ CM_TRACK_CAPACITY_KEY0, capacity ^^^ CM_TRACK_CAPACITY_KEY1)

/-- Decoding and validation performed by the CAP_TRACK_INIT branch:
`capacity = file_buf[0] ^ KEY0`, `check_capacity = file_buf[1] ^ KEY1`,
rejected unless `capacity == check_capacity`. -/
def trackDecode (fileBuf : Nat × Nat) : Option Nat :=
  let capacity := fileBuf.1 ^^^ CM_TRACK_CAPACITY_KEY0
  let check_capacity := fileBuf.2 ^^^ CM_TRACK_CAPACITY_KEY1
  if capacity = check_capacity then some capacity else none

/-- Unsigned 32-bit subtraction `a - b` (wrap-around), for `a b < 2^32`. -/
def u32sub (a b : Nat) : Nat := (a + 2 ^ 32 - b) % 2 ^ 32

/-- The kernel `abs()` applied to a `u32` expression reinterprets the value
as a signed 32-bit integer, negates when negative, and the result is
converted back to unsigned for the comparison against `total_cap / 2`. -/
def kabsU32 (n : Nat) : Nat := if n < 2 ^ 31 then n else 2 ^ 32 - n

/-- CAP_TRACK_INIT branch of `cm_track_capacity_work` (lines 3601-3625),
starting after the file open and the `get_batt_total_cap` read succeeded:
the state is set to IDLE up front; on a read error or a validation failure
the function jumps to `out` without touching the design capacity; otherwise
the stored value is adopted when within half the design capacity.
The returned pair is the new tracker state and the value passed to
`set_batt_total_cap`, if any. -/
def trackInitStep (fileRead : Option (Nat × Nat)) (totalCap : Nat) :
    CapTrackState × Option Nat :=
  match fileRead with
  | none => (.idle, none)
  | some fileBuf =>
    match trackDecode fileBuf with
    | none => (.idle, none)
    | some capacity =>
      if kabsU32 (u32sub totalCap capacity) < totalCap / 2 then
        (.idle, some capacity)
      else
        (.idle, none)

/-! ## C4: thermal status check (cm_check_thermal_status, lines 1703-1734) -/

/-- Thermal alert result: `0`, `CM_EVENT_BATT_OVERHEAT` or
`CM_EVENT_BATT_COLD` in the driver. -/
inductive ThermalStatus where
  | normal
  | overheat
  | cold
  deriving DecidableEq, Repr

/-- Thermal configuration from the charger description. -/
structure ThermalConfig where
  temp_max : Int
  temp_min : Int
  temp_diff : Int
  deriving Repr

/-- `cm_check_thermal_status`, with the temperature read modelled as an
input (a failed read returns `normal` upstream of this logic): the limits
are tightened by `temp_diff` when an emergency stop is already latched,
then over-temperature is checked before under-temperature. -/
def cm_check_thermal_status (cfg : ThermalConfig) (emergency_stop : Bool)
    (temp : Int) : ThermalStatus :=
  let upper_limit := if emergency_stop then cfg.temp_max - cfg.temp_diff else cfg.temp_max
  let lower_limit := if emergency_stop then cfg.temp_min + cfg.temp_diff else cfg.temp_min
  if temp > upper_limit then .overheat
  else if temp < lower_limit then .cold
  else .normal

/-! ## Theorems for C9 and C4 -/

/-- C9: encoding the tracker's persistent file and decoding it recovers the
same capacity, and a corrupted second word makes validation fail, so the
CAP_TRACK_INIT branch ignores the stored value (the design capacity is not
updated) and the tracker state returns to IDLE. -/
theorem c9_track_file_roundtrip (capacity : Nat) (_hcap : capacity < 2 ^ 32) :
    trackDecode (trackEncode capacity) = some capacity ∧
    (∀ w, w ≠ capacity ^^^ CM_TRACK_CAPACITY_KEY1 →
      trackDecode (capacity ^^^ CM_TRACK_CAPACITY_KEY0, w) = none ∧
      ∀ totalCap,
        trackInitStep (some (capacity ^^^ CM_TRACK_CAPACITY_KEY0, w)) totalCap =
          (CapTrackState.idle, none)) := by
  constructor
  · simp [trackDecode, trackEncode, Nat.xor_cancel_right]
  · intro w hw
    have hde : trackDecode (capacity ^^^ CM_TRACK_CAPACITY_KEY0, w) = none := by
      simp only [trackDecode, Nat.xor_cancel_right]
      rw [if_neg]
      intro h
      apply hw
      have := congrArg (fun z => z ^^^ CM_TRACK_CAPACITY_KEY1) h
      simpa [Nat.xor_cancel_right, Nat.xor_assoc] using this.symm
    refine ⟨hde, ?_⟩
    intro totalCap
    simp [trackInitStep, hde]

/-- C9 witness: concrete instantiation at capacity 4000 and corrupted
second word 0. -/
theorem c9_track_file_roundtrip_witness :
    trackDecode (trackEncode 4000) = some 4000 ∧
    trackDecode (4000 ^^^ CM_TRACK_CAPACITY_KEY0, 0) = none := by
  have h := c9_track_file_roundtrip 4000 (by decide)
  have h2 := (h.2 0 (by decide)).1
  exact ⟨h.1, h2⟩

/-- C4 counterexample: the claim states that Cold is returned exactly when
the temperature falls below the lower limit.  With an emergency latched and
`temp_diff` large enough that the tightened limits cross
(`temp_max = 100`, `temp_min = 0`, `temp_diff = 60`), a temperature of 50
is below the lower limit `0 + 60 = 60`, yet the function returns Overheat
because the over-temperature test (`50 > 100 - 60 = 40`) is checked
first. -/
theorem c4_thermal_status_counterexample :
    cm_check_thermal_status ⟨100, 0, 60⟩ true 50 = ThermalStatus.overheat ∧
    (50 : Int) < 0 + 60 ∧
    cm_check_thermal_status ⟨100, 0, 60⟩ true 50 ≠ ThermalStatus.cold := by
  decide

/-- C4 amended: Overheat is returned exactly when the temperature exceeds
the upper limit, and Cold exactly when the temperature does not exceed the
upper limit and falls below the lower limit (over-temperature takes
precedence), where the limits are `temp_max - temp_diff` and
`temp_min + temp_diff` when an emergency stop is latched and the raw
`temp_max` / `temp_min` otherwise. -/
theorem c4_thermal_status_amended (cfg : ThermalConfig) (em : Bool) (temp : Int) :
    (cm_check_thermal_status cfg em temp = ThermalStatus.overheat ↔
      temp > (if em then cfg.temp_max - cfg.temp_diff else cfg.temp_max)) ∧
    (cm_check_thermal_status cfg em temp = ThermalStatus.cold ↔
      (temp ≤ (if em then cfg.temp_max - cfg.temp_diff else cfg.temp_max) ∧
       temp < (if em then cfg.temp_min + cfg.temp_diff else cfg.temp_min))) := by
  simp only [cm_check_thermal_status]
  split_ifs <;> simp_all <;> omega

/-! ## C3: JEITA zone-change debouncing
(cm_manager_jeita_current_monitor, lines 1999-2068)

With external power present and JEITA enabled, the monitor computes a zone
`cur_jeita_status` each tick and keeps two trigger counters.  The trigger
logic of lines 2036-2061 is embedded below; the call to
`cm_manager_adjust_current` is abstracted as the `applied` flag of a step. -/

/-- Static locals of `cm_manager_jeita_current_monitor`:
`last_jeita_status` (-1 = no zone applied yet), `temp_up_trigger` and
`temp_down_trigger`. -/
structure JeitaTriggerState where
  last_jeita_status : Int
  temp_up_trigger : Nat
  temp_down_trigger : Nat
  deriving DecidableEq, Repr

/-- One monitor tick of the JEITA trigger logic (lines 2036-2061), given
the computed zone `cur`.  Returns the new state and whether
`cm_manager_adjust_current` was invoked (a zone application). -/
def jeitaTriggerStep (s : JeitaTriggerState) (cur : Int) : JeitaTriggerState × Bool :=
  if s.last_jeita_status = -1 then
    ({ s with last_jeita_status := cur }, true)
  else if cur > s.last_jeita_status then
    let u := s.temp_up_trigger + 1
    if u > 2 then
      (⟨cur, u, 0⟩, true)
    else
      ({ s with temp_up_trigger := u, temp_down_trigger := 0 }, false)
  else if cur < s.last_jeita_status then
    let d := s.temp_down_trigger + 1
    if d > 2 then
      (⟨cur, 0, d⟩, true)
    else
      ({ s with temp_up_trigger := 0, temp_down_trigger := d }, false)
  else
    ({ s with temp_up_trigger := 0, temp_down_trigger := 0 }, false)

/-- State after processing a list of computed zones. -/
def jeitaProcess (s : JeitaTriggerState) (ss : List Int) : JeitaTriggerState :=
  ss.foldl (fun s c => (jeitaTriggerStep s c).1) s

/-- Zone computed at tick `k` of the trace. -/
def tickAt (ss : List Int) (k : Nat) : Int := ss.getD k 0

/-- State just before tick `k` of the trace. -/
def jeitaStateAt (s0 : JeitaTriggerState) (ss : List Int) (k : Nat) : JeitaTriggerState :=
  jeitaProcess s0 (ss.take k)

/-- Tick `k` invokes `cm_manager_adjust_current`. -/
@[reducible] def jeitaAppliesAt (s0 : JeitaTriggerState) (ss : List Int) (k : Nat) : Prop :=
  (jeitaTriggerStep (jeitaStateAt s0 ss k) (tickAt ss k)).2 = true

/-- Tick `k` computes a zone above the currently applied zone. -/
@[reducible] def upTickAt (s0 : JeitaTriggerState) (ss : List Int) (k : Nat) : Prop :=
  tickAt ss k > (jeitaStateAt s0 ss k).last_jeita_status

/-- Tick `k` computes a zone below the currently applied zone. -/
@[reducible] def downTickAt (s0 : JeitaTriggerState) (ss : List Int) (k : Nat) : Prop :=
  tickAt ss k < (jeitaStateAt s0 ss k).last_jeita_status

theorem jeitaStateAt_succ (s0 : JeitaTriggerState) (ss : List Int) (k : Nat)
    (hk : k < ss.length) :
    jeitaStateAt s0 ss (k + 1) =
      (jeitaTriggerStep (jeitaStateAt s0 ss k) (tickAt ss k)).1 := by
  unfold jeitaStateAt jeitaProcess tickAt
  rw [List.take_succ, List.foldl_append, List.getElem?_eq_getElem hk,
    List.getD_eq_getElem ss 0 hk]
  rfl

theorem jeita_trigger_invariant (ss : List Int) (hss : ∀ c ∈ ss, 0 ≤ c)
    (s0 : JeitaTriggerState) (h0u : s0.temp_up_trigger = 0)
    (h0d : s0.temp_down_trigger = 0) (h0l : 0 ≤ s0.last_jeita_status)
    (k : Nat) (hk : k ≤ ss.length) :
    0 ≤ (jeitaStateAt s0 ss k).last_jeita_status ∧
    (jeitaStateAt s0 ss k).temp_up_trigger ≤ k ∧
    (jeitaStateAt s0 ss k).temp_down_trigger ≤ k ∧
    (∀ j, k - (jeitaStateAt s0 ss k).temp_up_trigger ≤ j → j < k → upTickAt s0 ss j) ∧
    (∀ j, k - (jeitaStateAt s0 ss k).temp_down_trigger ≤ j → j < k → downTickAt s0 ss j) := by
  induction k with
  | zero =>
    refine ⟨?_, ?_, ?_, ?_, ?_⟩ <;>
      simp [jeitaStateAt, jeitaProcess, h0u, h0d, h0l]
  | succ k ih =>
    have hk' : k < ss.length := Nat.lt_of_succ_le hk
    obtain ⟨ihl, ihu, ihd, ihus, ihds⟩ := ih (Nat.le_of_lt hk')
    have hc : 0 ≤ tickAt ss k := by
      have hmem : tickAt ss k ∈ ss := by
        unfold tickAt
        rw [List.getD_eq_getElem ss 0 hk']
        exact List.getElem_mem hk'
      exact hss _ hmem
    have hstep := jeitaStateAt_succ s0 ss k hk'
    set s := jeitaStateAt s0 ss k with hs
    have hlast : ¬ s.last_jeita_status = -1 := by omega
    have hup : upTickAt s0 ss k ↔ tickAt ss k > s.last_jeita_status := Iff.rfl
    have hdown : downTickAt s0 ss k ↔ tickAt ss k < s.last_jeita_status := Iff.rfl
    rw [hstep]
    unfold jeitaTriggerStep
    rw [if_neg hlast]
    by_cases hgt : tickAt ss k > s.last_jeita_status
    · rw [if_pos hgt]
      by_cases h3 : s.temp_up_trigger + 1 > 2
      · rw [if_pos h3]
        dsimp only
        refine ⟨hc, by omega, by omega, ?_, ?_⟩
        · intro j hj1 hj2
          rcases Nat.lt_succ_iff_lt_or_eq.mp hj2 with hj | hj
          · exact ihus j (by omega) hj
          · subst hj; exact hup.mpr hgt
        · intro j hj1 hj2; omega
      · rw [if_neg h3]
        dsimp only
        refine ⟨ihl, by omega, by omega, ?_, ?_⟩
        · intro j hj1 hj2
          rcases Nat.lt_succ_iff_lt_or_eq.mp hj2 with hj | hj
          · exact ihus j (by omega) hj
          · subst hj; exact hup.mpr hgt
        · intro j hj1 hj2; omega
    · rw [if_neg hgt]
      by_cases hlt : tickAt ss k < s.last_jeita_status
      · rw [if_pos hlt]
        by_cases h3 : s.temp_down_trigger + 1 > 2
        · rw [if_pos h3]
          dsimp only
          refine ⟨by omega, by omega, by omega, ?_, ?_⟩
          · intro j hj1 hj2; omega
          · intro j hj1 hj2
            rcases Nat.lt_succ_iff_lt_or_eq.mp hj2 with hj | hj
            · exact ihds j (by omega) hj
            · subst hj; exact hdown.mpr hlt
        · rw [if_neg h3]
          dsimp only
          refine ⟨ihl, by omega, by omega, ?_, ?_⟩
          · intro j hj1 hj2; omega
          · intro j hj1 hj2
            rcases Nat.lt_succ_iff_lt_or_eq.mp hj2 with hj | hj
            · exact ihds j (by omega) hj
            · subst hj; exact hdown.mpr hlt
      · rw [if_neg hlt]
        dsimp only
        refine ⟨ihl, by omega, by omega, ?_, ?_⟩ <;>
          · intro j hj1 hj2; omega

/-- Per-tick inputs of `cm_manager_jeita_current_monitor` (lines
1999-2068): external-power presence, the `jeita_disabled` override, and
the zone computed by `cm_manager_get_jeita_status` from the temperature. -/
structure JeitaMonitorInput where
  ext_online : Bool
  jeita_disabled : Bool
  zone : Int
  deriving Repr

/-- `cm_manager_jeita_current_monitor` (lines 1999-2068) with a JEITA
table configured: loss of external power resets only `last_jeita_status`
to -1 (lines 2009-2014) and `jeita_disabled` forces STATUS_T1_TO_T2
(= 2, lines 2016-2025) — in both branches the static trigger counters
survive untouched; otherwise the trigger logic of lines 2036-2061 runs on
the computed zone.  The boolean is true when `cm_manager_adjust_current`
was invoked. -/
def cm_manager_jeita_current_monitor (s : JeitaTriggerState)
    (i : JeitaMonitorInput) : JeitaTriggerState × Bool :=
  if !i.ext_online then
    (if s.last_jeita_status ≠ -1 then { s with last_jeita_status := -1 } else s,
      false)
  else if i.jeita_disabled then
    if s.last_jeita_status ≠ 2 then ({ s with last_jeita_status := 2 }, true)
    else (s, false)
  else
    jeitaTriggerStep s i.zone

/-- State after a sequence of monitor ticks. -/
def jeitaMonitorRun (s : JeitaTriggerState) (ticks : List JeitaMonitorInput) :
    JeitaTriggerState :=
  ticks.foldl (fun s i => (cm_manager_jeita_current_monitor s i).1) s

/-- C3 counterexample: the static trigger counters survive a power loss
(lines 2009-2014 reset only `last_jeita_status`), so the claim fails on a
reachable trace.  From the driver's initial state ⟨-1, 0, 0⟩, process:
zone 1 (initial application, last := 1), zone 2 twice (up-counter reaches
2, no change applied), a power-loss tick (last := -1, counters kept),
then replug at zone 1 (initial application, last := 1, stale up-counter
still 2).  The next power-present, JEITA-enabled tick computing zone 2 —
the first and only tick above the applied zone since that application —
already applies the zone change to 2, i.e. a change on one
same-direction tick instead of three. -/
theorem c3_jeita_single_tick_counterexample :
    (let s5 := jeitaMonitorRun ⟨-1, 0, 0⟩
       [⟨true, false, 1⟩, ⟨true, false, 2⟩, ⟨true, false, 2⟩,
        ⟨false, false, 0⟩, ⟨true, false, 1⟩]
     s5.last_jeita_status = 1 ∧ s5.temp_up_trigger = 2 ∧
     (cm_manager_jeita_current_monitor s5 ⟨true, false, 2⟩).2 = true ∧
     (cm_manager_jeita_current_monitor s5
       ⟨true, false, 2⟩).1.last_jeita_status = 2) := by
  decide

/-- C3 amended: starting from a state with an applied zone and cleared
trigger counters (the counters are static and are not cleared on a power
loss or a `jeita_disabled` toggle, so a window beginning with stale
counters is exempt), if some tick of a trace of computed zones (external
power present, JEITA enabled) invokes the zone change, then at least
three consecutive ticks — this one and the two before it — computed a
zone in the same direction relative to the then-applied zone (all above,
or all below); moreover a tick whose zone equals the applied zone resets
both trigger counters, and a tick in one direction resets the opposite
counter. -/
theorem c3_jeita_three_tick_debounce (ss : List Int) (hss : ∀ c ∈ ss, 0 ≤ c)
    (s0 : JeitaTriggerState) (h0u : s0.temp_up_trigger = 0)
    (h0d : s0.temp_down_trigger = 0) (h0l : 0 ≤ s0.last_jeita_status)
    (k : Nat) (hk : k < ss.length) (happ : jeitaAppliesAt s0 ss k) :
    (2 ≤ k ∧
      ((upTickAt s0 ss (k - 2) ∧ upTickAt s0 ss (k - 1) ∧ upTickAt s0 ss k) ∨
       (downTickAt s0 ss (k - 2) ∧ downTickAt s0 ss (k - 1) ∧ downTickAt s0 ss k))) ∧
    (∀ (s : JeitaTriggerState) (c : Int), ¬ s.last_jeita_status = -1 →
      (c = s.last_jeita_status →
        (jeitaTriggerStep s c).1.temp_up_trigger = 0 ∧
        (jeitaTriggerStep s c).1.temp_down_trigger = 0) ∧
      (c > s.last_jeita_status → (jeitaTriggerStep s c).1.temp_down_trigger = 0) ∧
      (c < s.last_jeita_status → (jeitaTriggerStep s c).1.temp_up_trigger = 0)) := by
  constructor
  · obtain ⟨hl, hu, hd, hus, hds⟩ :=
      jeita_trigger_invariant ss hss s0 h0u h0d h0l k (Nat.le_of_lt hk)
    unfold jeitaAppliesAt at happ
    set s := jeitaStateAt s0 ss k with hs
    have hlast : ¬ s.last_jeita_status = -1 := by omega
    unfold jeitaTriggerStep at happ
    rw [if_neg hlast] at happ
    by_cases hgt : tickAt ss k > s.last_jeita_status
    · rw [if_pos hgt] at happ
      by_cases h3 : s.temp_up_trigger + 1 > 2
      · have hu2 : 2 ≤ s.temp_up_trigger := by omega
        have hk2 : 2 ≤ k := by omega
        refine ⟨hk2, Or.inl ⟨?_, ?_, hgt⟩⟩
        · exact hus (k - 2) (by omega) (by omega)
        · exact hus (k - 1) (by omega) (by omega)
      · rw [if_neg h3] at happ; simp at happ
    · rw [if_neg hgt] at happ
      by_cases hlt : tickAt ss k < s.last_jeita_status
      · rw [if_pos hlt] at happ
        by_cases h3 : s.temp_down_trigger + 1 > 2
        · have hd2 : 2 ≤ s.temp_down_trigger := by omega
          have hk2 : 2 ≤ k := by omega
          refine ⟨hk2, Or.inr ⟨?_, ?_, hlt⟩⟩
          · exact hds (k - 2) (by omega) (by omega)
          · exact hds (k - 1) (by omega) (by omega)
        · rw [if_neg h3] at happ; simp at happ
      · rw [if_neg hlt] at happ; simp at happ
  · intro s c hlast
    unfold jeitaTriggerStep
    rw [if_neg hlast]
    refine ⟨?_, ?_, ?_⟩
    · intro he
      rw [if_neg (by omega), if_neg (by omega)]
      exact ⟨rfl, rfl⟩
    · intro hgt
      rw [if_pos hgt]
      by_cases h3 : s.temp_up_trigger + 1 > 2
      · rw [if_pos h3]
      · rw [if_neg h3]
    · intro hlt
      rw [if_neg (by omega), if_pos hlt]
      by_cases h3 : s.temp_down_trigger + 1 > 2
      · rw [if_pos h3]
      · rw [if_neg h3]

/-- C3 witness: from applied zone 2 with cleared counters, the trace
[3, 3, 3] applies the change at tick 2 after three consecutive up ticks. -/
theorem c3_jeita_three_tick_debounce_witness :
    (2 ≤ 2 ∧
      ((upTickAt ⟨2, 0, 0⟩ [3, 3, 3] 0 ∧ upTickAt ⟨2, 0, 0⟩ [3, 3, 3] 1 ∧
        upTickAt ⟨2, 0, 0⟩ [3, 3, 3] 2) ∨
       (downTickAt ⟨2, 0, 0⟩ [3, 3, 3] 0 ∧ downTickAt ⟨2, 0, 0⟩ [3, 3, 3] 1 ∧
        downTickAt ⟨2, 0, 0⟩ [3, 3, 3] 2))) ∧
    (∀ (s : JeitaTriggerState) (c : Int), ¬ s.last_jeita_status = -1 →
      (c = s.last_jeita_status →
        (jeitaTriggerStep s c).1.temp_up_trigger = 0 ∧
        (jeitaTriggerStep s c).1.temp_down_trigger = 0) ∧
      (c > s.last_jeita_status → (jeitaTriggerStep s c).1.temp_down_trigger = 0) ∧
      (c < s.last_jeita_status → (jeitaTriggerStep s c).1.temp_up_trigger = 0)) :=
  c3_jeita_three_tick_debounce [3, 3, 3] (by decide) ⟨2, 0, 0⟩ rfl rfl (by decide)
    2 (by decide) (by decide)

/-! ## C1: fast-charge enable handshake
(cm_fast_charge_enable_check, lines 1142-1256)

Hardware writes through the power-supply bus are modelled as an effect
trace; the success of each write is an oracle in the environment.  The
primary charger (`psy_charger_stat[0]`) is assumed to resolve; the
post-success JEITA table re-selection (lines 1240-1251) runs after all
four steps succeeded and before the flag is set, and is elided here as it
issues no command of the handshake. -/

/-- Command codes written to POWER_SUPPLY_PROP_STATUS of a charger:
`CM_FAST_CHARGE_ENABLE_CMD` (fast-charge/9 V current setting) and
`CM_FAST_CHARGE_DISABLE_CMD` (back to the DCP/5 V setting). -/
inductive FcCmd where
  | fastEnable
  | fastDisable
  deriving DecidableEq, Repr

/-- A hardware write issued during the handshake. -/
inductive FcEffect where
  | mainCmd (cmd : FcCmd)
  | secondCurrent
  | fastVoltage (uV : Int)
  | secondEnable (en : Bool)
  deriving DecidableEq, Repr

/-- Environment of one run: configuration presence bits, sensor readings,
and write-success oracles. -/
structure FcEnv where
  hasFastCharger : Bool
  hasSecondCharger : Bool
  readsOk : Bool
  battUv : Int
  battUa : Int
  mainCmdOk : FcCmd → Bool
  secondCurrentOk : Bool
  fastVoltageOk : Int → Bool
  secondEnableOk : Bool → Bool

/-- Driver state touched by the handshake. -/
structure FcState where
  emergency_stop : Bool
  is_fast_charge : Bool
  enable_fast_charge : Bool
  fast_charge_enable_count : Nat
  charge_voltage_max : Int
  charge_voltage_drop : Int
  fast_charge_voltage_max : Int
  fast_charge_voltage_drop : Int
  deriving Repr

/-- `cm_set_main_charger_current` (lines 997-1033): one STATUS write to the
primary charger. -/
def cm_set_main_charger_current (env : FcEnv) (cmd : FcCmd) : List FcEffect × Bool :=
  ([.mainCmd cmd], env.mainCmdOk cmd)

/-- `cm_set_second_charger_current` (lines 1035-1075): no-op success when
`psy_charger_stat[1]` is not configured. -/
def cm_set_second_charger_current (env : FcEnv) : List FcEffect × Bool :=
  if env.hasSecondCharger then ([.secondCurrent], env.secondCurrentOk) else ([], true)

/-- `cm_adjust_fast_charge_voltage` (lines 1113-1140): VOLTAGE_MAX write to
the fast charger. -/
def cm_adjust_fast_charge_voltage (env : FcEnv) (uV : Int) : List FcEffect × Bool :=
  ([.fastVoltage uV], env.fastVoltageOk uV)

/-- `cm_enable_second_charger` (lines 1077-1111): no-op success when
`psy_charger_stat[1]` is not configured. -/
def cm_enable_second_charger (env : FcEnv) (en : Bool) : List FcEffect × Bool :=
  if env.hasSecondCharger then ([.secondEnable en], env.secondEnableOk en) else ([], true)

/-- `cm_fast_charge_enable_check` (lines 1142-1256).  Returns the new
state, the trace of issued hardware writes, and whether the function
returned success (0). -/
def cm_fast_charge_enable_check (s : FcState) (env : FcEnv) :
    FcState × List FcEffect × Bool :=
  if s.emergency_stop then (s, [], false)
  else if !env.hasFastCharger then (s, [], true)
  else if !s.is_fast_charge || s.enable_fast_charge then (s, [], true)
  else if !env.readsOk then (s, [], false)
  else
    -- the current-based gate is commented out in the source (bug-fix note
    -- at line 1177): only the battery voltage is compared
    let cnt := if env.battUv > CM_FAST_CHARGE_ENABLE_BATTERY_VOLTAGE then
        s.fast_charge_enable_count + 1 else 0
    if cnt < 2 then ({ s with fast_charge_enable_count := cnt }, [], true)
    else
      let s1 := { s with fast_charge_enable_count := 0 }
      let step1 := cm_set_main_charger_current env .fastEnable
      if !step1.2 then
        (s1, step1.1 ++ (cm_set_main_charger_current env .fastDisable).1, false)
      else
        let step2 := cm_set_second_charger_current env
        if !step2.2 then
          (s1, step1.1 ++ step2.1 ++ (cm_set_main_charger_current env .fastDisable).1,
            false)
        else
          let step3 := cm_adjust_fast_charge_voltage env CM_FAST_CHARGE_VOLTAGE_9V
          if !step3.2 then
            (s1, step1.1 ++ step2.1 ++ step3.1 ++
              (cm_set_main_charger_current env .fastDisable).1, false)
          else
            let step4 := cm_enable_second_charger env true
            if !step4.2 then
              (s1, step1.1 ++ step2.1 ++ step3.1 ++ step4.1 ++
                (cm_set_main_charger_current env .fastDisable).1, false)
            else
              let s2 := { s1 with
                charge_voltage_max :=
                  if s1.fast_charge_voltage_max ≠ 0 then s1.fast_charge_voltage_max
                  else s1.charge_voltage_max,
                charge_voltage_drop :=
                  if s1.fast_charge_voltage_drop ≠ 0 then s1.fast_charge_voltage_drop
                  else s1.charge_voltage_drop,
                enable_fast_charge := true }
              (s2, step1.1 ++ step2.1 ++ step3.1 ++ step4.1, true)

/-- C1: when the handshake runs (battery voltage above the enable
threshold on two consecutive checks, with a secondary charger present),
its four steps are issued in order — primary FAST_ENABLE, secondary
current, fast-charger voltage 9 V, secondary enable — a failure of any
step issues a rollback of the primary to the DCP command and leaves the
fast-charge flag false, and the flag becomes true exactly when all four
steps succeed; on the first check that meets the voltage condition the
handshake does not run yet. -/
theorem c1_fast_charge_enable_handshake (s : FcState) (env : FcEnv)
    (hem : s.emergency_stop = false) (hfc : env.hasFastCharger = true)
    (hisf : s.is_fast_charge = true) (hen : s.enable_fast_charge = false)
    (hrd : env.readsOk = true) (hsec : env.hasSecondCharger = true)
    (huv : env.battUv > CM_FAST_CHARGE_ENABLE_BATTERY_VOLTAGE)
    (hcnt : s.fast_charge_enable_count = 1) :
    (let r := cm_fast_charge_enable_check s env
     let r1 := env.mainCmdOk .fastEnable
     let r2 := env.secondCurrentOk
     let r3 := env.fastVoltageOk CM_FAST_CHARGE_VOLTAGE_9V
     let r4 := env.secondEnableOk true
     (r.1.enable_fast_charge = true ↔ r1 ∧ r2 ∧ r3 ∧ r4) ∧
     (r1 ∧ r2 ∧ r3 ∧ r4 →
       r.2.1 = [.mainCmd .fastEnable, .secondCurrent,
                .fastVoltage CM_FAST_CHARGE_VOLTAGE_9V, .secondEnable true]) ∧
     (¬ r1 → r.2.1 = [.mainCmd .fastEnable, .mainCmd .fastDisable]) ∧
     (r1 → ¬ r2 → r.2.1 =
       [.mainCmd .fastEnable, .secondCurrent, .mainCmd .fastDisable]) ∧
     (r1 → r2 → ¬ r3 → r.2.1 =
       [.mainCmd .fastEnable, .secondCurrent,
        .fastVoltage CM_FAST_CHARGE_VOLTAGE_9V, .mainCmd .fastDisable]) ∧
     (r1 → r2 → r3 → ¬ r4 → r.2.1 =
       [.mainCmd .fastEnable, .secondCurrent,
        .fastVoltage CM_FAST_CHARGE_VOLTAGE_9V, .secondEnable true,
        .mainCmd .fastDisable]) ∧
     (¬ (r1 ∧ r2 ∧ r3 ∧ r4) → r.1.enable_fast_charge = false ∧
       r.2.1.getLast? = some (.mainCmd .fastDisable))) ∧
    (cm_fast_charge_enable_check { s with fast_charge_enable_count := 0 } env).2.1
      = [] := by
  have hgate :
      ¬ ((if env.battUv > CM_FAST_CHARGE_ENABLE_BATTERY_VOLTAGE then
          s.fast_charge_enable_count + 1 else 0) < 2) := by
    rw [if_pos huv, hcnt]
    omega
  constructor
  · simp only [cm_fast_charge_enable_check, hem, hfc, hisf, hen, hrd,
      Bool.false_eq_true, if_false, Bool.not_true, Bool.false_or,
      Bool.true_eq_false, if_neg hgate,
      cm_set_main_charger_current, cm_set_second_charger_current,
      cm_adjust_fast_charge_voltage, cm_enable_second_charger, hsec, if_true]
    by_cases h1 : env.mainCmdOk .fastEnable <;>
      by_cases h2 : env.secondCurrentOk <;>
        by_cases h3 : env.fastVoltageOk CM_FAST_CHARGE_VOLTAGE_9V <;>
          by_cases h4 : env.secondEnableOk true <;>
            simp_all [List.getLast?]
  · have hgate0 :
        ((if env.battUv > CM_FAST_CHARGE_ENABLE_BATTERY_VOLTAGE then
          (0 : Nat) + 1 else 0) < 2) := by
      rw [if_pos huv]
      omega
    simp only [cm_fast_charge_enable_check, hem, hfc, hisf, hen, hrd,
      Bool.false_eq_true, if_false, Bool.not_true, Bool.false_or,
      Bool.true_eq_false]
    rw [if_pos hgate0]

/-- Concrete environment for the C1 witness: secondary charger present,
every hardware write succeeds. -/
def fcEnvAllOk : FcEnv where
  hasFastCharger := true
  hasSecondCharger := true
  readsOk := true
  battUv := 3450000
  battUa := 1500000
  mainCmdOk := fun _ => true
  secondCurrentOk := true
  fastVoltageOk := fun _ => true
  secondEnableOk := fun _ => true

/-- Concrete ready state for the C1 witness: the voltage condition already
held on the previous check. -/
def fcStateReady : FcState where
  emergency_stop := false
  is_fast_charge := true
  enable_fast_charge := false
  fast_charge_enable_count := 1
  charge_voltage_max := 6500000
  charge_voltage_drop := 700000
  fast_charge_voltage_max := 10500000
  fast_charge_voltage_drop := 700000

/-- C1 witness: with every write succeeding, the handshake issues the four
steps in order and sets the fast-charge flag. -/
theorem c1_fast_charge_enable_handshake_witness :
    (cm_fast_charge_enable_check fcStateReady fcEnvAllOk).1.enable_fast_charge = true ∧
    (cm_fast_charge_enable_check fcStateReady fcEnvAllOk).2.1 =
      [.mainCmd .fastEnable, .secondCurrent,
       .fastVoltage CM_FAST_CHARGE_VOLTAGE_9V, .secondEnable true] := by
  have h := c1_fast_charge_enable_handshake fcStateReady fcEnvAllOk rfl rfl rfl rfl
    rfl rfl (by decide) rfl
  exact ⟨(h.1.1).mpr ⟨rfl, rfl, rfl, rfl⟩, h.1.2.1 ⟨rfl, rfl, rfl, rfl⟩⟩

/-! ## C5: full-battery detector (is_full_charged, lines 886-972) -/

/-- Full-battery configuration of the charger description. -/
structure FbConfig where
  fullbatt_full_capacity : Int
  fullbatt_uV : Int
  fullbatt_uA : Int
  first_fullbatt_uA : Int
  fullbatt_soc : Int
  deriving Repr

/-- Detector state: the two consecutive-tick counters (`first_trigger_cnt`,
`trigger_cnt`), the soft-full flag and the reported capacity (‰). -/
structure FbState where
  first_trigger_cnt : Nat
  trigger_cnt : Nat
  force_set_full : Bool
  cap : Int
  deriving DecidableEq, Repr

/-- Sensor values for one evaluation; `none` models a failed read. -/
structure FbInput where
  battPresent : Bool
  fgFound : Bool
  chargeFull : Option Int
  uVRead : Option Int
  uARead : Option Int
  socRead : Option Int
  deriving Repr

/-- Result of one evaluation: updated state, the boolean result, whether
`adjust_fuel_cap(.., CM_FORCE_SET_FUEL_CAP_FULL)` was issued, and whether
the primary charger was disabled. -/
structure FbResult where
  state : FbState
  is_full : Bool
  calibrate : Bool
  primaryDisable : Bool
  deriving DecidableEq, Repr

/-- `is_full_charged` (lines 886-972), with power-supply reads as inputs. -/
def is_full_charged (cfg : FbConfig) (s : FbState) (inp : FbInput) : FbResult :=
  if !inp.battPresent then ⟨s, false, false, false⟩
  else if !inp.fgFound then ⟨s, false, false, false⟩
  else
    -- full if CHARGE_FULL exceeds the configured capacity (lines 903-913)
    let fullByCap : Bool :=
      cfg.fullbatt_full_capacity > 0 &&
        (match inp.chargeFull with
         | some v => decide (v > cfg.fullbatt_full_capacity)
         | none => false)
    if fullByCap then ⟨s, true, false, false⟩
    else if cfg.fullbatt_uV > 0 ∧ cfg.fullbatt_uA > 0 then
      match inp.uVRead, inp.uARead with
      | some uV, some uA =>
        -- first-full window: fullbatt_uA < uA ≤ first_fullbatt_uA (lines 925-931)
        let s1 :=
          if cfg.first_fullbatt_uA > 0 ∧ uV ≥ cfg.fullbatt_uV ∧
              uA > cfg.fullbatt_uA ∧ uA ≤ cfg.first_fullbatt_uA ∧ uA ≥ 0 then
            { s with first_trigger_cnt := s.first_trigger_cnt + 1,
                     force_set_full :=
                       if s.first_trigger_cnt + 1 > 1 then true else s.force_set_full }
          else
            { s with first_trigger_cnt := 0 }
        -- stable-full window: uA ≤ fullbatt_uA (lines 933-954)
        if uV ≥ cfg.fullbatt_uV ∧ uA ≤ cfg.fullbatt_uA ∧ uA ≥ 0 then
          if s1.trigger_cnt + 1 > 1 then
            if s1.cap ≥ CM_CAP_FULL_PERCENT then
              ⟨{ s1 with trigger_cnt := s1.trigger_cnt + 1, force_set_full := true },
                true, s1.trigger_cnt + 1 = 2, false⟩
            else
              ⟨{ s1 with trigger_cnt := s1.trigger_cnt + 1, force_set_full := true },
                false, true, s1.trigger_cnt + 1 = 2⟩
          else
            ⟨{ s1 with trigger_cnt := s1.trigger_cnt + 1 }, false, false, false⟩
        else
          ⟨{ s1 with trigger_cnt := 0 }, false, false, false⟩
      | _, _ => ⟨s, false, false, false⟩
    else
      -- full if the capacity exceeds fullbatt_soc (lines 957-967)
      let fullBySoc : Bool :=
        cfg.fullbatt_soc > 0 &&
          (match inp.socRead with
           | some v => decide (v ≥ cfg.fullbatt_soc)
           | none => false)
      ⟨s, fullBySoc, false, false⟩

/-- C5 counterexample: config `V_full = 4.35 V`, `I_full = 150 mA`,
`I_first_full = 300 mA`; two consecutive evaluations at 4.36 V with
currents 200 mA then 100 mA — both satisfy `0 < I ≤ I_first_full` and
`V ≥ V_full` — yet `force_set_full` stays false, because the first tick
only arms the first-full counter (I > I_full) and the second tick resets
it and only arms the stable-full counter (I ≤ I_full). -/
theorem c5_soft_full_counterexample :
    (let cfg : FbConfig := ⟨0, 4350000, 150000, 300000, 0⟩
     let i1 : FbInput := ⟨true, true, none, some 4360000, some 200000, none⟩
     let i2 : FbInput := ⟨true, true, none, some 4360000, some 100000, none⟩
     let r1 := is_full_charged cfg ⟨0, 0, false, 900⟩ i1
     let r2 := is_full_charged cfg r1.state i2
     ((0 : Int) < 200000 ∧ 200000 ≤ 300000 ∧ (4360000 : Int) ≥ 4350000) ∧
     ((0 : Int) < 100000 ∧ 100000 ≤ 300000 ∧ (4360000 : Int) ≥ 4350000) ∧
     r2.state.force_set_full = false) := by
  decide

/-- Step lemma: an evaluation inside the first-full current window
increments `first_trigger_cnt` and sets the soft-full flag from the second
consecutive hit on. -/
theorem is_full_charged_first_window (cfg : FbConfig) (s : FbState) (inp : FbInput)
    (hp : inp.battPresent = true) (hf : inp.fgFound = true)
    (hcap : ¬ (cfg.fullbatt_full_capacity > 0 ∧
      (∃ v, inp.chargeFull = some v ∧ v > cfg.fullbatt_full_capacity)))
    (hv : cfg.fullbatt_uV > 0) (ha : cfg.fullbatt_uA > 0)
    (uV uA : Int) (huVr : inp.uVRead = some uV) (huAr : inp.uARead = some uA)
    (h1 : cfg.first_fullbatt_uA > 0) (h2 : uV ≥ cfg.fullbatt_uV)
    (h3 : uA > cfg.fullbatt_uA) (h4 : uA ≤ cfg.first_fullbatt_uA) :
    (is_full_charged cfg s inp).state.first_trigger_cnt = s.first_trigger_cnt + 1 ∧
    (is_full_charged cfg s inp).state.force_set_full =
      (if s.first_trigger_cnt + 1 > 1 then true else s.force_set_full) := by
  have hbyCap : (cfg.fullbatt_full_capacity > 0 &&
      (match inp.chargeFull with
       | some v => decide (v > cfg.fullbatt_full_capacity)
       | none => false)) = false := by
    cases hcf : inp.chargeFull with
    | none => simp
    | some v =>
      simp only [Bool.and_eq_false_iff, decide_eq_false_iff_not]
      by_cases hpos : cfg.fullbatt_full_capacity > 0
      · right
        intro hgt
        exact hcap ⟨hpos, v, hcf, hgt⟩
      · left
        simpa using hpos
  have hfw : cfg.first_fullbatt_uA > 0 ∧ uV ≥ cfg.fullbatt_uV ∧
      uA > cfg.fullbatt_uA ∧ uA ≤ cfg.first_fullbatt_uA ∧ uA ≥ 0 :=
    ⟨h1, h2, h3, h4, by omega⟩
  have hsw : ¬ (uV ≥ cfg.fullbatt_uV ∧ uA ≤ cfg.fullbatt_uA ∧ uA ≥ 0) := by
    rintro ⟨-, hle, -⟩
    omega
  simp only [is_full_charged, hp, hf, hbyCap, Bool.not_true, Bool.false_eq_true,
    if_false, if_pos (And.intro hv ha), huVr, huAr, if_pos hfw, if_neg hsw]
  simp

/-- Step lemma: an evaluation inside the stable-full current window
increments `trigger_cnt` and sets the soft-full flag from the second
consecutive hit on. -/
theorem is_full_charged_stable_window (cfg : FbConfig) (s : FbState) (inp : FbInput)
    (hp : inp.battPresent = true) (hf : inp.fgFound = true)
    (hcap : ¬ (cfg.fullbatt_full_capacity > 0 ∧
      (∃ v, inp.chargeFull = some v ∧ v > cfg.fullbatt_full_capacity)))
    (hv : cfg.fullbatt_uV > 0) (ha : cfg.fullbatt_uA > 0)
    (uV uA : Int) (huVr : inp.uVRead = some uV) (huAr : inp.uARead = some uA)
    (h2 : uV ≥ cfg.fullbatt_uV) (h3 : uA ≤ cfg.fullbatt_uA) (h4 : uA ≥ 0) :
    (is_full_charged cfg s inp).state.trigger_cnt = s.trigger_cnt + 1 ∧
    (is_full_charged cfg s inp).state.force_set_full =
      (if s.trigger_cnt + 1 > 1 then true else s.force_set_full) := by
  have hbyCap : (cfg.fullbatt_full_capacity > 0 &&
      (match inp.chargeFull with
       | some v => decide (v > cfg.fullbatt_full_capacity)
       | none => false)) = false := by
    cases hcf : inp.chargeFull with
    | none => simp
    | some v =>
      simp only [Bool.and_eq_false_iff, decide_eq_false_iff_not]
      by_cases hpos : cfg.fullbatt_full_capacity > 0
      · right
        intro hgt
        exact hcap ⟨hpos, v, hcf, hgt⟩
      · left
        simpa using hpos
  have hfw : ¬ (cfg.first_fullbatt_uA > 0 ∧ uV ≥ cfg.fullbatt_uV ∧
      uA > cfg.fullbatt_uA ∧ uA ≤ cfg.first_fullbatt_uA ∧ uA ≥ 0) := by
    rintro ⟨-, -, hgt, -, -⟩
    omega
  have hsw : uV ≥ cfg.fullbatt_uV ∧ uA ≤ cfg.fullbatt_uA ∧ uA ≥ 0 := ⟨h2, h3, h4⟩
  simp only [is_full_charged, hp, hf, hbyCap, Bool.not_true, Bool.false_eq_true,
    if_false, if_pos (And.intro hv ha), huVr, huAr, if_neg hfw, if_pos hsw]
  by_cases hcnt : s.trigger_cnt + 1 > 1
  · rw [if_pos hcnt, if_pos hcnt]
    by_cases hfull : s.cap ≥ CM_CAP_FULL_PERCENT
    · rw [if_pos hfull]
      exact ⟨rfl, rfl⟩
    · rw [if_neg hfull]
      exact ⟨rfl, rfl⟩
  · rw [if_neg hcnt, if_neg hcnt]
    exact ⟨rfl, rfl⟩

/-- C5 amended: two consecutive evaluations with `V ≥ V_full` and the
current in the same window both times — either both in
`(I_full, I_first_full]` (with `first_fullbatt_uA` configured) or both in
`[0, I_full]` — set `force_set_full` to true; a pair of hits that
straddles `I_full` does not. -/
theorem c5_soft_full_two_ticks (cfg : FbConfig) (s : FbState) (i1 i2 : FbInput)
    (hp1 : i1.battPresent = true) (hf1 : i1.fgFound = true)
    (hp2 : i2.battPresent = true) (hf2 : i2.fgFound = true)
    (hcap1 : ¬ (cfg.fullbatt_full_capacity > 0 ∧
      (∃ v, i1.chargeFull = some v ∧ v > cfg.fullbatt_full_capacity)))
    (hcap2 : ¬ (cfg.fullbatt_full_capacity > 0 ∧
      (∃ v, i2.chargeFull = some v ∧ v > cfg.fullbatt_full_capacity)))
    (hv : cfg.fullbatt_uV > 0) (ha : cfg.fullbatt_uA > 0)
    (uV1 uA1 uV2 uA2 : Int)
    (huV1 : i1.uVRead = some uV1) (huA1 : i1.uARead = some uA1)
    (huV2 : i2.uVRead = some uV2) (huA2 : i2.uARead = some uA2)
    (hfull1 : uV1 ≥ cfg.fullbatt_uV) (hfull2 : uV2 ≥ cfg.fullbatt_uV)
    (hband :
      (cfg.first_fullbatt_uA > 0 ∧
        uA1 > cfg.fullbatt_uA ∧ uA1 ≤ cfg.first_fullbatt_uA ∧
        uA2 > cfg.fullbatt_uA ∧ uA2 ≤ cfg.first_fullbatt_uA) ∨
      (uA1 ≤ cfg.fullbatt_uA ∧ uA1 ≥ 0 ∧ uA2 ≤ cfg.fullbatt_uA ∧ uA2 ≥ 0)) :
    (is_full_charged cfg (is_full_charged cfg s i1).state i2).state.force_set_full
      = true := by
  rcases hband with ⟨h1, ha1, hb1, ha2, hb2⟩ | ⟨ha1, hb1, ha2, hb2⟩
  · obtain ⟨hc1, -⟩ :=
      is_full_charged_first_window cfg s i1 hp1 hf1 hcap1 hv ha uV1 uA1
        huV1 huA1 h1 hfull1 ha1 hb1
    obtain ⟨-, hforce⟩ :=
      is_full_charged_first_window cfg (is_full_charged cfg s i1).state i2 hp2 hf2
        hcap2 hv ha uV2 uA2 huV2 huA2 h1 hfull2 ha2 hb2
    rw [hforce, hc1, if_pos (by omega)]
  · obtain ⟨hc1, -⟩ :=
      is_full_charged_stable_window cfg s i1 hp1 hf1 hcap1 hv ha uV1 uA1
        huV1 huA1 hfull1 ha1 hb1
    obtain ⟨-, hforce⟩ :=
      is_full_charged_stable_window cfg (is_full_charged cfg s i1).state i2 hp2 hf2
        hcap2 hv ha uV2 uA2 huV2 huA2 hfull2 ha2 hb2
    rw [hforce, hc1, if_pos (by omega)]

/-- C5 witness: two consecutive evaluations at 4.36 V / 200 mA in the
first-full window set the soft-full flag. -/
theorem c5_soft_full_two_ticks_witness :
    (let cfg : FbConfig := ⟨0, 4350000, 150000, 300000, 0⟩
     let i : FbInput := ⟨true, true, none, some 4360000, some 200000, none⟩
     (is_full_charged cfg (is_full_charged cfg ⟨0, 0, false, 900⟩ i).state
       i).state.force_set_full = true) :=
  c5_soft_full_two_ticks ⟨0, 4350000, 150000, 300000, 0⟩ ⟨0, 0, false, 900⟩
    ⟨true, true, none, some 4360000, some 200000, none⟩
    ⟨true, true, none, some 4360000, some 200000, none⟩
    rfl rfl rfl rfl (by rintro ⟨h, -⟩; exact absurd h (by decide))
    (by rintro ⟨h, -⟩; exact absurd h (by decide))
    (by decide) (by decide) 4360000 200000 4360000 200000 rfl rfl rfl rfl
    (by decide) (by decide)
    (Or.inl ⟨by decide, by decide, by decide, by decide, by decide⟩)

/-! ## C8: uevent buffering across suspend
(uevent_notify, lines 1510-1551; cm_suspend_complete, lines 4741-4788)

`env_str` holds the last delivered message, `env_str_save` the suspend
buffer (empty string = nothing buffered).  `strncmp`/`strncpy` with
`UEVENT_BUF_SIZE` are modelled as string equality/assignment (all driver
messages are shorter than the buffer). -/

/-- Static buffers of `uevent_notify`. -/
structure UeventState where
  env_str : String
  env_str_save : String
  deriving DecidableEq, Repr

/-- `uevent_notify` (lines 1510-1551).  `event = none` is the NULL flush
call documented to be issued by the resume function; the suspended branch
is never entered with NULL in the driver.  Returns the new buffers and the
message delivered to users, if any. -/
def uevent_notify (cm_suspended : Bool) (st : UeventState) (event : Option String) :
    UeventState × Option String :=
  if cm_suspended then
    match event with
    | none => (st, none)
    | some e =>
      if st.env_str_save = "" then
        if st.env_str = e then (st, none)
        else ({ st with env_str_save := e }, none)
      else
        if st.env_str_save = e then (st, none)
        else ({ st with env_str_save := e }, none)
  else
    match event with
    | none =>
      if st.env_str_save = "" then (st, none)
      else (⟨st.env_str_save, ""⟩, some st.env_str_save)
    | some e =>
      if st.env_str = e then (st, none)
      else ({ st with env_str := e }, some e)

/-- Process a list of `uevent_notify` calls, collecting delivered
messages. -/
def processNotifies (cm_suspended : Bool) (st : UeventState)
    (events : List (Option String)) : UeventState × List String :=
  events.foldl
    (fun acc e =>
      let r := uevent_notify cm_suspended acc.1 e
      (r.1, acc.2 ++ r.2.toList))
    (st, [])

/-- The `uevent_notify` calls made by the resume path
(`cm_suspend_complete`, lines 4741-4788): the function re-runs the monitor
and the capacity update but never invokes `uevent_notify` — in particular
it never issues the NULL flush call that the documentation of
`uevent_notify` (lines 1503-1508) says the resume function performs. -/
def cm_suspend_complete_notify_calls : List (Option String) := []

/-- C8: the bug at the failing input.  While suspended (last delivered
message "Charging"), events "Charging", "Charging", "Discharging" arrive:
only the latest distinct message "Discharging" is buffered and nothing is
delivered.  On resume, `cm_suspend_complete` performs no `uevent_notify`
call at all, so the buffered "Discharging" is never delivered — although
the NULL flush path that `uevent_notify`'s own documentation assigns to
the resume function would deliver it exactly once. -/
theorem c8_suspend_notify_flush_missing :
    (let st0 : UeventState := ⟨"Charging", ""⟩
     let suspendPhase := processNotifies true st0
       [some "Charging", some "Charging", some "Discharging"]
     -- buffering: no delivery while suspended, only the latest survives
     suspendPhase.2 = [] ∧
     suspendPhase.1.env_str_save = "Discharging" ∧
     -- the resume path of this source delivers nothing
     processNotifies false suspendPhase.1 cm_suspend_complete_notify_calls =
       (suspendPhase.1, []) ∧
     -- the documented flush call would deliver the buffer exactly once
     (uevent_notify false suspendPhase.1 none).2 = some "Discharging" ∧
     (uevent_notify false (uevent_notify false suspendPhase.1 none).1 none).2 =
       none) := by
  decide

/-! ## C10: charging_status categories
(check_charging_duration 1604-1659, cm_check_charge_voltage 1736-1787,
cm_check_charge_health 1789-1840, cm_manager_adjust_current 1871-1951)

`cm->charging_status` is a bitset with bits CM_CHARGE_TEMP_OVERHEAT,
CM_CHARGE_TEMP_COLD, CM_CHARGE_DURATION_ABNORMAL,
CM_CHARGE_VOLTAGE_ABNORMAL and CM_CHARGE_HEALTH_ABNORMAL (declared in the
driver's header); only their identity matters, so the set is embedded as a
record of booleans. -/

/-- The `cm->charging_status` bitset. -/
structure ChargingStatus where
  temp_overheat : Bool
  temp_cold : Bool
  duration_abnormal : Bool
  voltage_abnormal : Bool
  health_abnormal : Bool
  deriving DecidableEq, Repr

/-- `cm->charging_status != 0`. -/
def ChargingStatus.nonzero (cs : ChargingStatus) : Bool :=
  cs.temp_overheat || cs.temp_cold || cs.duration_abnormal ||
    cs.voltage_abnormal || cs.health_abnormal

/-- Number of abnormality categories (temperature, duration, voltage,
health) with a latched bit. -/
def ChargingStatus.categoryCount (cs : ChargingStatus) : Nat :=
  (if cs.temp_overheat || cs.temp_cold then 1 else 0) +
  (if cs.duration_abnormal then 1 else 0) +
  (if cs.voltage_abnormal then 1 else 0) +
  (if cs.health_abnormal then 1 else 0)

/-- At most one abnormality category is latched. -/
@[reducible] def atMostOneCategory (cs : ChargingStatus) : Prop := cs.categoryCount ≤ 1

/-- Guard-visible runtime state. -/
structure GuardState where
  charging_status : ChargingStatus
  charger_enabled : Bool
  charging_start_time : Int
  charging_end_time : Int
  deriving DecidableEq, Repr

/-- The direct part of `try_charger_enable` (lines 1438-1475): the
redundant-command check of lines 1438-1440, then (for enable) the
emergency/battery-presence early returns of lines 1443-1452 as `gate`,
the start/end timestamp updates, and the psy write (`psy` its success),
which alone flips `charger_enabled`. -/
def tryChargerEnableBase (s : GuardState) (now : Int) (gate psy : Bool)
    (enable : Bool) : GuardState :=
  if enable = s.charger_enabled then s
  else if enable ∧ !gate then s
  else
    let s1 :=
      if enable then { s with charging_start_time := now, charging_end_time := 0 }
      else { s with charging_start_time := 0, charging_end_time := now }
    if psy then { s1 with charger_enabled := enable } else s1

/-- One outcome of a `cm_manager_adjust_current` run embedded in the
fast-charge path: the sink branch with zone 0 or with zone
`jeita_tab_size` (lines 1886-1897: a nested `try_charger_enable(false)`,
whose enable-gate and psy oracles the constructor carries, then the
TEMP_COLD resp. TEMP_OVERHEAT bit is ORed in), or the success branch
(lines 1900-1950: CC/CV writes, a nested `try_charger_enable(true)`, and
both temperature bits cleared). -/
inductive AdjustFx where
  | sinkCold (gate psy : Bool)
  | sinkOverheat (gate psy : Bool)
  | normalClear (gate psy : Bool)
  deriving DecidableEq, Repr

/-- Apply one embedded `cm_manager_adjust_current` outcome.  Only the
temperature bits, `charger_enabled` and the timestamps are touched: the
duration/voltage/health bits are written nowhere in the fast-charge path
(their only writers are lines 1635/1648, 1768/1778 and 1824/1832 in the
guards themselves). -/
def applyAdjustFx (s : GuardState) (now : Int) : AdjustFx → GuardState
  | .sinkCold g p =>
    let s1 := tryChargerEnableBase s now g p false
    { s1 with charging_status := { s1.charging_status with temp_cold := true } }
  | .sinkOverheat g p =>
    let s1 := tryChargerEnableBase s now g p false
    { s1 with charging_status := { s1.charging_status with temp_overheat := true } }
  | .normalClear g p =>
    let s1 := tryChargerEnableBase s now g p true
    { s1 with charging_status :=
        { s1.charging_status with temp_overheat := false, temp_cold := false } }

/-- `try_charger_enable` (lines 1432-1476).  Line 1436 first calls
`try_fast_charger_enable(cm, enable)` (result ignored), which can reach
`cm_fast_charge_enable_check` (its success tail runs
`cm_manager_adjust_current`, line 1250) or `cm_fast_charge_disable`
(whose tail runs `cm_manager_adjust_current`, line 1317); those embedded
adjustments call `try_charger_enable` again (lines 1890 and 1948), which
re-enters `try_fast_charger_enable` while `enable_fast_charge` is still
set, so the recursion tree is flattened here into the oracle list
`fastFx` of embedded adjustment outcomes in execution order — its effect
on the modelled state (temperature bits of `charging_status`,
`charger_enabled`, timestamps) over-approximates every outcome of the
fast-charge path, which never writes the duration/voltage/health bits.
Then the direct stage of lines 1438-1475 runs. -/
def try_charger_enable (s : GuardState) (now : Int) (fastFx : List AdjustFx)
    (gate psy : Bool) (enable : Bool) : GuardState :=
  tryChargerEnableBase (fastFx.foldl (fun t fx => applyAdjustFx t now fx) s)
    now gate psy enable

/-- Environment of one `check_charging_duration` run. -/
structure DurationEnv where
  charging_max_duration_ms : Int
  discharging_max_duration_ms : Int
  fullbatt_uV : Int
  fullbatt_vchkdrop_uV : Int
  curr : Int
  ocvRead : Option Int
  ext_online : Bool
  fastFx : List AdjustFx
  gate : Bool
  psy : Bool
  deriving Repr

/-- `check_charging_duration` (lines 1604-1659). -/
def check_charging_duration (env : DurationEnv) (s : GuardState) :
    GuardState × Bool :=
  if env.charging_max_duration_ms = 0 ∧ env.discharging_max_duration_ms = 0 then
    (s, false)
  else if s.charging_status.nonzero ∧ !s.charging_status.duration_abnormal then
    (s, false)
  else
    match env.ocvRead with
    | none => (s, true)
    | some ocv =>
      let diff := env.fullbatt_uV - ocv
      let r :=
        if s.charger_enabled then
          if env.curr - s.charging_start_time > env.charging_max_duration_ms ∧
              diff < env.fullbatt_vchkdrop_uV then
            let s1 := try_charger_enable s env.curr env.fastFx env.gate env.psy false
            ({ s1 with charging_status :=
                { s1.charging_status with duration_abnormal := true } }, true)
          else (s, false)
        else if env.ext_online ∧ !s.charger_enabled ∧
            s.charging_status.duration_abnormal then
          if env.curr - s.charging_end_time > env.discharging_max_duration_ms ∧
              env.ext_online then
            let s1 := try_charger_enable s env.curr env.fastFx env.gate env.psy true
            ({ s1 with charging_status :=
                { s1.charging_status with duration_abnormal := false } }, true)
          else (s, false)
        else (s, false)
      -- the final duration-bit check (lines 1653-1658) only affects the
      -- returned value, not the state
      (r.1, if r.1.charging_status.duration_abnormal then true else r.2)

/-- Environment of one `cm_check_charge_voltage` run. -/
structure VoltageEnv where
  charge_voltage_max : Int
  charge_voltage_drop : Int
  fgFound : Bool
  chargeVolRead : Option Int
  ext_online : Bool
  curr : Int
  fastFx : List AdjustFx
  gate : Bool
  psy : Bool
  deriving Repr

/-- `cm_check_charge_voltage` (lines 1736-1787); the second component is
true when the function returned 0 (it handled the tick). -/
def cm_check_charge_voltage (env : VoltageEnv) (s : GuardState) :
    GuardState × Bool :=
  if env.charge_voltage_max = 0 ∨ env.charge_voltage_drop = 0 then (s, false)
  else if s.charging_status.nonzero ∧ !s.charging_status.voltage_abnormal then
    (s, false)
  else if !env.fgFound then (s, false)
  else
    match env.chargeVolRead with
    | none => (s, false)
    | some charge_vol =>
      if s.charger_enabled ∧ charge_vol > env.charge_voltage_max then
        let s1 := try_charger_enable s env.curr env.fastFx env.gate env.psy false
        ({ s1 with charging_status :=
            { s1.charging_status with voltage_abnormal := true } }, true)
      else if env.ext_online ∧ !s.charger_enabled ∧
          charge_vol ≤ env.charge_voltage_max - env.charge_voltage_drop ∧
          s.charging_status.voltage_abnormal then
        let s1 := try_charger_enable s env.curr env.fastFx env.gate env.psy true
        ({ s1 with charging_status :=
            { s1.charging_status with voltage_abnormal := false } }, true)
      else if s.charging_status.voltage_abnormal then (s, true)
      else (s, false)

/-- Aggregated charger health as read by `cm_check_charge_health`. -/
inductive PsyHealth where
  | good
  | notGood
  | unknown
  deriving DecidableEq, Repr

/-- Environment of one `cm_check_charge_health` run. -/
structure HealthEnv where
  readOk : Bool
  health : PsyHealth
  ext_online : Bool
  curr : Int
  fastFx : List AdjustFx
  gate : Bool
  psy : Bool
  deriving Repr

/-- `cm_check_charge_health` (lines 1789-1840). -/
def cm_check_charge_health (env : HealthEnv) (s : GuardState) :
    GuardState × Bool :=
  if s.charging_status.nonzero ∧ !s.charging_status.health_abnormal then
    (s, false)
  else if !env.readOk then (s, false)
  else if env.health = .unknown then (s, false)
  else if s.charger_enabled ∧ env.health ≠ .good then
    let s1 := try_charger_enable s env.curr env.fastFx env.gate env.psy false
    ({ s1 with charging_status :=
        { s1.charging_status with health_abnormal := true } }, true)
  else if env.ext_online ∧ !s.charger_enabled ∧ env.health = .good ∧
      s.charging_status.health_abnormal then
    let s1 := try_charger_enable s env.curr env.fastFx env.gate env.psy true
    ({ s1 with charging_status :=
        { s1.charging_status with health_abnormal := false } }, true)
  else if s.charging_status.health_abnormal then (s, true)
  else (s, false)

/-- Environment of one `cm_manager_adjust_current` run. -/
structure AdjustEnv where
  jeita_tab_size : Int
  setOk : Bool
  now : Int
  fastFx1 : List AdjustFx
  gate1 : Bool
  psy1 : Bool
  fastFx2 : List AdjustFx
  gate2 : Bool
  psy2 : Bool
  deriving Repr

/-- `cm_manager_adjust_current` (lines 1871-1951); the boolean result is
the function's return value.  The CC/CV writes to the chargers are
summarized by the `setOk` oracle (result of the last write attempt). -/
def cm_manager_adjust_current (env : AdjustEnv) (s : GuardState)
    (jeita_status : Int) : GuardState × Bool :=
  if s.charging_status.nonzero ∧
      !(s.charging_status.temp_overheat || s.charging_status.temp_cold) then
    (s, true)
  else
    let js := if jeita_status > env.jeita_tab_size then env.jeita_tab_size
              else jeita_status
    if js = 0 ∨ js = env.jeita_tab_size then
      let s1 := try_charger_enable s env.now env.fastFx1 env.gate1 env.psy1 false
      let s2 :=
        if js = 0 then
          { s1 with charging_status := { s1.charging_status with temp_cold := true } }
        else
          { s1 with charging_status :=
              { s1.charging_status with temp_overheat := true } }
      (s2, false)
    else
      if !env.setOk then (s, false)
      else
        let s1 := try_charger_enable s env.now env.fastFx2 env.gate2 env.psy2 true
        ({ s1 with charging_status :=
            { s1.charging_status with temp_overheat := false, temp_cold := false } },
          true)

/-- One call to a `charging_status` mutator: the three guards, the JEITA
adjuster, or one of the full resets (`cm->charging_status = 0`, lines 2170
and 2431). -/
inductive GuardCall where
  | duration (env : DurationEnv)
  | voltage (env : VoltageEnv)
  | health (env : HealthEnv)
  | adjust (env : AdjustEnv) (jeita_status : Int)
  | clearAll

/-- Apply one mutator call. -/
def guardApply (s : GuardState) (c : GuardCall) : GuardState :=
  match c with
  | .duration env => (check_charging_duration env s).1
  | .voltage env => (cm_check_charge_voltage env s).1
  | .health env => (cm_check_charge_health env s).1
  | .adjust env js => (cm_manager_adjust_current env s js).1
  | .clearAll => { s with charging_status := ⟨false, false, false, false, false⟩ }

theorem tryChargerEnableBase_status (s : GuardState) (now : Int) (g p e : Bool) :
    (tryChargerEnableBase s now g p e).charging_status = s.charging_status := by
  unfold tryChargerEnableBase
  split_ifs <;> rfl

/-- The number of non-temperature abnormality categories (duration,
voltage, health) with a latched bit. -/
def ChargingStatus.nonTempCategoryCount (cs : ChargingStatus) : Nat :=
  (if cs.duration_abnormal then 1 else 0) +
  (if cs.voltage_abnormal then 1 else 0) +
  (if cs.health_abnormal then 1 else 0)

/-- At most one of the duration/voltage/health categories is latched. -/
@[reducible] def atMostOneNonTempCategory (cs : ChargingStatus) : Prop :=
  cs.nonTempCategoryCount ≤ 1

theorem applyAdjustFx_nonTemp (s : GuardState) (now : Int) (fx : AdjustFx) :
    (applyAdjustFx s now fx).charging_status.duration_abnormal =
      s.charging_status.duration_abnormal ∧
    (applyAdjustFx s now fx).charging_status.voltage_abnormal =
      s.charging_status.voltage_abnormal ∧
    (applyAdjustFx s now fx).charging_status.health_abnormal =
      s.charging_status.health_abnormal := by
  cases fx <;>
    refine ⟨?_, ?_, ?_⟩ <;>
      simp only [applyAdjustFx] <;>
        rw [tryChargerEnableBase_status]

theorem try_charger_enable_nonTemp (s : GuardState) (now : Int)
    (fastFx : List AdjustFx) (g p e : Bool) :
    (try_charger_enable s now fastFx g p e).charging_status.duration_abnormal =
      s.charging_status.duration_abnormal ∧
    (try_charger_enable s now fastFx g p e).charging_status.voltage_abnormal =
      s.charging_status.voltage_abnormal ∧
    (try_charger_enable s now fastFx g p e).charging_status.health_abnormal =
      s.charging_status.health_abnormal := by
  unfold try_charger_enable
  rw [tryChargerEnableBase_status]
  induction fastFx generalizing s with
  | nil => exact ⟨rfl, rfl, rfl⟩
  | cons fx fxs ih =>
    rw [List.foldl_cons]
    obtain ⟨h1, h2, h3⟩ := ih (applyAdjustFx s now fx)
    obtain ⟨g1, g2, g3⟩ := applyAdjustFx_nonTemp s now fx
    exact ⟨h1.trans g1, h2.trans g2, h3.trans g3⟩

theorem status_gate : ∀ (n own : Bool),
    ¬ (n = true ∧ (!own) = true) → (n = false ∨ own = true) := by
  decide

theorem amoNT_duration_update : ∀ (a b c d e a2 b2 c2 d2 e2 : Bool),
    atMostOneNonTempCategory ⟨a, b, c, d, e⟩ →
    (c2 = c ∨ ChargingStatus.nonzero ⟨a, b, c, d, e⟩ = false ∨ c = true) →
    d2 = d → e2 = e →
    atMostOneNonTempCategory ⟨a2, b2, c2, d2, e2⟩ := by
  decide

theorem amoNT_voltage_update : ∀ (a b c d e a2 b2 c2 d2 e2 : Bool),
    atMostOneNonTempCategory ⟨a, b, c, d, e⟩ →
    (d2 = d ∨ ChargingStatus.nonzero ⟨a, b, c, d, e⟩ = false ∨ d = true) →
    c2 = c → e2 = e →
    atMostOneNonTempCategory ⟨a2, b2, c2, d2, e2⟩ := by
  decide

theorem amoNT_health_update : ∀ (a b c d e a2 b2 c2 d2 e2 : Bool),
    atMostOneNonTempCategory ⟨a, b, c, d, e⟩ →
    (e2 = e ∨ ChargingStatus.nonzero ⟨a, b, c, d, e⟩ = false ∨ e = true) →
    c2 = c → d2 = d →
    atMostOneNonTempCategory ⟨a2, b2, c2, d2, e2⟩ := by
  decide

theorem amoNT_temp_update : ∀ (a b c d e a2 b2 c2 d2 e2 : Bool),
    atMostOneNonTempCategory ⟨a, b, c, d, e⟩ →
    c2 = c → d2 = d → e2 = e →
    atMostOneNonTempCategory ⟨a2, b2, c2, d2, e2⟩ := by
  decide

set_option maxHeartbeats 1000000 in
theorem check_charging_duration_nonTemp (env : DurationEnv) (s : GuardState) :
    (check_charging_duration env s).1.charging_status.voltage_abnormal =
      s.charging_status.voltage_abnormal ∧
    (check_charging_duration env s).1.charging_status.health_abnormal =
      s.charging_status.health_abnormal ∧
    ((check_charging_duration env s).1.charging_status.duration_abnormal =
        s.charging_status.duration_abnormal ∨
      s.charging_status.nonzero = false ∨
      s.charging_status.duration_abnormal = true) := by
  unfold check_charging_duration
  cases hocv : env.ocvRead <;>
    dsimp only <;> split_ifs <;>
      first
      | exact ⟨rfl, rfl, Or.inl rfl⟩
      | exact ⟨(try_charger_enable_nonTemp _ _ _ _ _ _).2.1,
          (try_charger_enable_nonTemp _ _ _ _ _ _).2.2,
          Or.inr (status_gate _ _ (by assumption))⟩

set_option maxHeartbeats 1000000 in
theorem cm_check_charge_voltage_nonTemp (env : VoltageEnv) (s : GuardState) :
    (cm_check_charge_voltage env s).1.charging_status.duration_abnormal =
      s.charging_status.duration_abnormal ∧
    (cm_check_charge_voltage env s).1.charging_status.health_abnormal =
      s.charging_status.health_abnormal ∧
    ((cm_check_charge_voltage env s).1.charging_status.voltage_abnormal =
        s.charging_status.voltage_abnormal ∨
      s.charging_status.nonzero = false ∨
      s.charging_status.voltage_abnormal = true) := by
  unfold cm_check_charge_voltage
  cases hv : env.chargeVolRead <;>
    dsimp only <;> split_ifs <;>
      first
      | exact ⟨rfl, rfl, Or.inl rfl⟩
      | exact ⟨(try_charger_enable_nonTemp _ _ _ _ _ _).1,
          (try_charger_enable_nonTemp _ _ _ _ _ _).2.2,
          Or.inr (status_gate _ _ (by assumption))⟩

set_option maxHeartbeats 1000000 in
theorem cm_check_charge_health_nonTemp (env : HealthEnv) (s : GuardState) :
    (cm_check_charge_health env s).1.charging_status.duration_abnormal =
      s.charging_status.duration_abnormal ∧
    (cm_check_charge_health env s).1.charging_status.voltage_abnormal =
      s.charging_status.voltage_abnormal ∧
    ((cm_check_charge_health env s).1.charging_status.health_abnormal =
        s.charging_status.health_abnormal ∨
      s.charging_status.nonzero = false ∨
      s.charging_status.health_abnormal = true) := by
  unfold cm_check_charge_health
  dsimp only
  split_ifs <;>
    first
    | exact ⟨rfl, rfl, Or.inl rfl⟩
    | exact ⟨(try_charger_enable_nonTemp _ _ _ _ _ _).1,
        (try_charger_enable_nonTemp _ _ _ _ _ _).2.1,
        Or.inr (status_gate _ _ (by assumption))⟩

set_option maxHeartbeats 1000000 in
theorem cm_manager_adjust_current_nonTemp (env : AdjustEnv) (s : GuardState)
    (js : Int) :
    (cm_manager_adjust_current env s js).1.charging_status.duration_abnormal =
      s.charging_status.duration_abnormal ∧
    (cm_manager_adjust_current env s js).1.charging_status.voltage_abnormal =
      s.charging_status.voltage_abnormal ∧
    (cm_manager_adjust_current env s js).1.charging_status.health_abnormal =
      s.charging_status.health_abnormal := by
  unfold cm_manager_adjust_current
  dsimp only
  split_ifs <;>
    first
    | exact ⟨rfl, rfl, rfl⟩
    | exact ⟨(try_charger_enable_nonTemp _ _ _ _ _ _).1,
        (try_charger_enable_nonTemp _ _ _ _ _ _).2.1,
        (try_charger_enable_nonTemp _ _ _ _ _ _).2.2⟩

theorem check_charging_duration_preserves (env : DurationEnv) (s : GuardState)
    (h : atMostOneNonTempCategory s.charging_status) :
    atMostOneNonTempCategory (check_charging_duration env s).1.charging_status := by
  obtain ⟨⟨a, b, c, d, e⟩, en, ts, te⟩ := s
  obtain ⟨hv, hh, hd⟩ :=
    check_charging_duration_nonTemp env ⟨⟨a, b, c, d, e⟩, en, ts, te⟩
  dsimp only at hv hh hd h
  exact amoNT_duration_update a b c d e _ _ _ _ _ h hd hv hh

theorem cm_check_charge_voltage_preserves (env : VoltageEnv) (s : GuardState)
    (h : atMostOneNonTempCategory s.charging_status) :
    atMostOneNonTempCategory (cm_check_charge_voltage env s).1.charging_status := by
  obtain ⟨⟨a, b, c, d, e⟩, en, ts, te⟩ := s
  obtain ⟨hd, hh, hv⟩ :=
    cm_check_charge_voltage_nonTemp env ⟨⟨a, b, c, d, e⟩, en, ts, te⟩
  dsimp only at hd hh hv h
  exact amoNT_voltage_update a b c d e _ _ _ _ _ h hv hd hh

theorem cm_check_charge_health_preserves (env : HealthEnv) (s : GuardState)
    (h : atMostOneNonTempCategory s.charging_status) :
    atMostOneNonTempCategory (cm_check_charge_health env s).1.charging_status := by
  obtain ⟨⟨a, b, c, d, e⟩, en, ts, te⟩ := s
  obtain ⟨hd, hv, hh⟩ :=
    cm_check_charge_health_nonTemp env ⟨⟨a, b, c, d, e⟩, en, ts, te⟩
  dsimp only at hd hv hh h
  exact amoNT_health_update a b c d e _ _ _ _ _ h hh hd hv

theorem cm_manager_adjust_current_preserves (env : AdjustEnv) (s : GuardState)
    (js : Int) (h : atMostOneNonTempCategory s.charging_status) :
    atMostOneNonTempCategory
      (cm_manager_adjust_current env s js).1.charging_status := by
  obtain ⟨⟨a, b, c, d, e⟩, en, ts, te⟩ := s
  obtain ⟨hd, hv, hh⟩ :=
    cm_manager_adjust_current_nonTemp env ⟨⟨a, b, c, d, e⟩, en, ts, te⟩ js
  dsimp only at hd hv hh h
  exact amoNT_temp_update a b c d e _ _ _ _ _ h hd hv hh

theorem guardApply_preserves (s : GuardState) (c : GuardCall)
    (h : atMostOneNonTempCategory s.charging_status) :
    atMostOneNonTempCategory (guardApply s c).charging_status := by
  cases c with
  | duration env => exact check_charging_duration_preserves env s h
  | voltage env => exact cm_check_charge_voltage_preserves env s h
  | health env => exact cm_check_charge_health_preserves env s h
  | adjust env js => exact cm_manager_adjust_current_preserves env s js h
  | clearAll =>
    simp [guardApply, atMostOneNonTempCategory, ChargingStatus.nonTempCategoryCount]

/-- C10 counterexample: the claim is false of the source.  With an empty
`charging_status`, the charger enabled, the charging duration exceeded and
fast charge active, `check_charging_duration` calls `try_charger_enable`
(line 1634), whose `try_fast_charger_enable` call (line 1436) reaches the
`cm_manager_adjust_current` embedded in `cm_fast_charge_disable` (line
1317); at a sink temperature that adjustment latches TEMP_COLD (line 1893)
before the guard ORs in DURATION_ABNORMAL (line 1635), leaving bits from
two categories latched at once. -/
theorem c10_two_categories_counterexample :
    (let env : DurationEnv :=
      ⟨3600000, 7200000, 4350000, 100000, 4000000, some 4330000, true,
        [.sinkCold true true], true, true⟩
     let s : GuardState := ⟨⟨false, false, false, false, false⟩, true, 0, 0⟩
     (check_charging_duration env s).1.charging_status.temp_cold = true ∧
     (check_charging_duration env s).1.charging_status.duration_abnormal = true ∧
     ¬ atMostOneCategory (check_charging_duration env s).1.charging_status) := by
  decide

/-- C10 amended: (1) every state reachable from a state whose
`charging_status` has bits from at most one of the duration, voltage and
health categories — in particular from the initial zero status — still
has bits from at most one of those categories after any sequence of
guard / JEITA-adjuster / reset calls (the temperature bits can
additionally be latched by the JEITA adjustment embedded in the
charger-enable path, so temperature may coexist with one other
category); (2) each guard and the adjuster return with `charging_status`
and the charger-enable state untouched whenever some bit is latched but
none of their own category is; (3) the charger-enable path itself never
modifies the duration, voltage or health bits. -/
theorem c10_charging_status_single_nontemp_category (s0 : GuardState)
    (h0 : atMostOneNonTempCategory s0.charging_status) (calls : List GuardCall) :
    atMostOneNonTempCategory (calls.foldl guardApply s0).charging_status ∧
    (∀ (env : DurationEnv) (s : GuardState),
      s.charging_status.nonzero = true →
      s.charging_status.duration_abnormal = false →
      (check_charging_duration env s).1 = s) ∧
    (∀ (env : VoltageEnv) (s : GuardState),
      s.charging_status.nonzero = true →
      s.charging_status.voltage_abnormal = false →
      (cm_check_charge_voltage env s).1 = s) ∧
    (∀ (env : HealthEnv) (s : GuardState),
      s.charging_status.nonzero = true →
      s.charging_status.health_abnormal = false →
      (cm_check_charge_health env s).1 = s) ∧
    (∀ (env : AdjustEnv) (s : GuardState) (js : Int),
      s.charging_status.nonzero = true →
      s.charging_status.temp_overheat = false →
      s.charging_status.temp_cold = false →
      (cm_manager_adjust_current env s js).1 = s) ∧
    (∀ (s : GuardState) (now : Int) (fastFx : List AdjustFx) (g p e : Bool),
      (try_charger_enable s now fastFx g p e).charging_status.duration_abnormal =
        s.charging_status.duration_abnormal ∧
      (try_charger_enable s now fastFx g p e).charging_status.voltage_abnormal =
        s.charging_status.voltage_abnormal ∧
      (try_charger_enable s now fastFx g p e).charging_status.health_abnormal =
        s.charging_status.health_abnormal) := by
  refine ⟨?_, ?_, ?_, ?_, ?_, ?_⟩
  · induction calls generalizing s0 with
    | nil => exact h0
    | cons c cs ih =>
      rw [List.foldl_cons]
      exact ih (guardApply s0 c) (guardApply_preserves s0 c h0)
  · intro env s hn hd
    unfold check_charging_duration
    split_ifs with h1 h2 <;> first
    | rfl
    | exact absurd ⟨hn, by simp [hd]⟩ h2
  · intro env s hn hd
    unfold cm_check_charge_voltage
    split_ifs with h1 h2 <;> first
    | rfl
    | exact absurd ⟨hn, by simp [hd]⟩ h2
  · intro env s hn hd
    unfold cm_check_charge_health
    split_ifs with h1 <;> first
    | rfl
    | exact absurd ⟨hn, by simp [hd]⟩ h1
  · intro env s js hn ho hc
    unfold cm_manager_adjust_current
    rw [if_pos ⟨hn, by simp [ho, hc]⟩]
  · intro s now fastFx g p e
    exact try_charger_enable_nonTemp s now fastFx g p e

/-- C10 witness: from the zero status, a duration trip whose embedded
fast-charge disable latches TEMP_COLD, followed by a voltage-guard call,
still leaves at most one non-temperature category latched. -/
theorem c10_charging_status_single_nontemp_category_witness :
    atMostOneNonTempCategory
      ([GuardCall.duration ⟨3600000, 7200000, 4350000, 100000, 4000000,
          some 4330000, true, [.sinkCold true true], true, true⟩,
        GuardCall.voltage ⟨6500000, 700000, true, some 7000000, true, 0, [],
          true, true⟩].foldl guardApply
        ⟨⟨false, false, false, false, false⟩, true, 0, 0⟩).charging_status :=
  (c10_charging_status_single_nontemp_category
    ⟨⟨false, false, false, false, false⟩, true, 0, 0⟩
    (by decide)
    [GuardCall.duration ⟨3600000, 7200000, 4350000, 100000, 4000000,
        some 4330000, true, [.sinkCold true true], true, true⟩,
      GuardCall.voltage ⟨6500000, 700000, true, some 7000000, true, 0, [],
        true, true⟩]).1

/-! ## C2 / C6 / C7: capacity filter (cm_batt_works, lines 4106-4366)

The capacity-update worker is embedded as a step function from the state
it owns (reported capacity `cm->desc->cap` in per mille, the static
`last_fuel_cap`, trigger counters and timestamps) and the per-tick sensor
readings to the new state plus the `power_supply_changed` flag.  A failed
sensor read returns from the worker before any state change (lines
4118-4166), so reads are modelled as always-available inputs; the clock is
passed as the elapsed time `dt` since the previous run
(`cur_time - last_query_time`).  The `set_batt_cap` write-back to the fuel
gauge (line 4358) leaves the modelled state untouched and is elided. -/

/-- Charger status values used by the filter (POWER_SUPPLY_STATUS_*). -/
inductive PsyStatus where
  | charging
  | notCharging
  | discharging
  | full
  deriving DecidableEq, Repr

/-- Capacity-filter configuration from the charger description. -/
structure CapConfig where
  cap_one_time : Int
  trickle_time_out : Int
  fullbatt_uV : Int
  fullbatt_vchkdrop_uV : Int
  deriving Repr

/-- Capacity-filter state. -/
structure CapState where
  cap : Int
  last_fuel_cap : Int
  low_temp_trigger_cnt : Int
  trickle_start_time : Int
  trickle_time : Int
  last_query_time : Int
  update_capacity_time : Int
  force_set_full : Bool
  deriving DecidableEq, Repr

/-- Sensor readings and elapsed time for one run of the worker. -/
structure CapInput where
  dt : Nat
  battUv : Int
  battOcv : Int
  batUa : Int
  fuelCapRaw : Int
  curTemp : Int
  isFull : Bool
  isCharging : Bool
  extOnline : Bool
  deriving Repr

/-- Clamp of the fuel-gauge SOC into [0, 1000] (lines 4178-4181). -/
def clampCap (x : Int) : Int :=
  if x > CM_CAP_FULL_PERCENT then CM_CAP_FULL_PERCENT
  else if x < 0 then 0
  else x

/-- Wall-clock second of this run (`cur_time.tv_sec`); the worker stores it
into `last_query_time` (line 4217), so it equals the previous
`last_query_time` plus the elapsed time. -/
def capCurTime (s : CapState) (i : CapInput) : Int := s.last_query_time + (i.dt : Int)

/-- The fuel-gauge SOC after the low-temperature forcing (lines 4170-4176:
on the third consecutive tick with `temp ≤ 10 °C` and
`V ≤ 3.2 V` the raw value is replaced by 0) and the [0, 1000] clamp. -/
def capFuelClamped (s : CapState) (i : CapInput) : Int :=
  clampCap
    (if i.curTemp ≤ CM_LOW_TEMP_REGION ∧ i.battUv ≤ CM_LOW_TEMP_SHUTDOWN_VALTAGE ∧
        s.low_temp_trigger_cnt > 1 then 0
     else i.fuelCapRaw)

/-- The static `last_fuel_cap` after its magic-number initialization
(lines 4183-4184). -/
def capLast0 (s : CapState) (i : CapInput) : Int :=
  if s.last_fuel_cap = CM_CAP_MAGIC_NUM then capFuelClamped s i else s.last_fuel_cap

/-- `chg_sts` (lines 4188-4195). -/
def capChgSts (i : CapInput) : PsyStatus :=
  if i.isFull then .full
  else if i.isCharging then .charging
  else if i.extOnline then .notCharging
  else .discharging

/-- `cm->desc->charger_status` (lines 4219-4222): forced FULL while
`force_set_full` holds under external power. -/
def capChargerStatus (s : CapState) (i : CapInput) : PsyStatus :=
  if s.force_set_full ∧ i.extOnline then .full else capChgSts i

/-- New `trickle_start_time` (lines 4201-4213). -/
def capTrickleStart (s : CapState) (i : CapInput) : Int :=
  if capChgSts i = .charging then
    if s.cap ≥ 986 then s.trickle_start_time else capCurTime s i
  else capCurTime s i

/-- New `trickle_time` (lines 4201-4213). -/
def capTrickle (cfg : CapConfig) (s : CapState) (i : CapInput) : Int :=
  if capChgSts i = .charging then
    if s.cap ≥ 986 then capCurTime s i - s.trickle_start_time else 0
  else cfg.trickle_time_out + cfg.cap_one_time

/-- The `switch (cm->desc->charger_status)` of lines 4234-4339, producing
the filtered `fuel_cap`, the new `last_fuel_cap`, the new `force_set_full`
and the new `update_capacity_time` (before the final change check). -/
def capSwitch (cfg : CapConfig) (status : PsyStatus)
    (cap last fuel batUa battOcv : Int) (extOnline : Bool)
    (period flush trickle : Int) (force : Bool) (update cur : Int) :
    Int × Int × Bool × Int :=
  match status with
  | .charging =>
    -- lines 4235-4283
    let q := cdiv flush cfg.cap_one_time * 10
    let f :=
      if fuel < cap then
        if batUa ≥ 0 then cap
        else
          let f1 := if period < cfg.cap_one_time ∧ cap - fuel ≥ 5 then cap - 5 else fuel
          if cap - f1 ≥ q then cap - q else f1
      else if fuel > cap then
        let f1 := if period < cfg.cap_one_time ∧ fuel - cap ≥ 5 then cap + 5 else fuel
        if f1 - cap ≥ q then cap + q else f1
      else fuel
    let f2 := if cap ≥ 986 ∧ cap ≤ 994 ∧ f ≥ CM_CAP_FULL_PERCENT then 994 else f
    let force2 := if cap ≥ 986 ∧ trickle ≥ cfg.trickle_time_out ∧
        cfg.trickle_time_out > 0 ∧ batUa > 0 then true else force
    (f2, fuel, force2, update)
  | .notCharging | .discharging =>
    -- lines 4285-4320
    let q := cdiv flush cfg.cap_one_time * 10
    if fuel ≥ cap then (cap, fuel, force, update)
    else if cap ≥ CM_HCAP_THRESHOLD then
      if last - fuel ≥ CM_HCAP_DECREASE_STEP then
        (if cap - fuel ≥ CM_CAP_ONE_PERCENT then cap - CM_CAP_ONE_PERCENT
         else cap - CM_HCAP_DECREASE_STEP,
          last - CM_HCAP_DECREASE_STEP, force, update)
      else (cap, last, force, update)
    else
      let f1 := if period < cfg.cap_one_time ∧ cap - fuel ≥ 5 then cap - 5 else fuel
      (if cap - f1 ≥ q then cap - q
       else if cap - f1 > CM_CAP_ONE_PERCENT then cap - CM_CAP_ONE_PERCENT
       else f1,
        last, force, update)
  | .full =>
    -- lines 4322-4336
    let force2 :=
      if battOcv < cfg.fullbatt_uV - cfg.fullbatt_vchkdrop_uV - 50000 ∧ batUa < 0 then
        false
      else force
    let f :=
      if extOnline then
        let f0 := if fuel ≠ CM_CAP_FULL_PERCENT then CM_CAP_FULL_PERCENT else fuel
        if f0 > cap then cap + 1 else f0
      else fuel
    (f, fuel, force2, cur)

/-- One run of the capacity part of `cm_batt_works` (lines 4106-4366):
returns the new state and whether `power_supply_changed` was called
(lines 4349-4354). -/
def capStep (cfg : CapConfig) (s : CapState) (i : CapInput) : CapState × Bool :=
  let cur_time := capCurTime s i
  let r := capSwitch cfg (capChargerStatus s i) s.cap (capLast0 s i)
    (capFuelClamped s i) i.batUa i.battOcv i.extOnline
    (cur_time - s.last_query_time) (cur_time - s.update_capacity_time)
    (capTrickle cfg s i) s.force_set_full s.update_capacity_time cur_time
  let changed : Bool :=
    if r.1 ≠ s.cap ∧ divRoundClosest10 r.1 ≠ divRoundClosest10 s.cap then true
    else false
  ({ cap := r.1,
     last_fuel_cap := r.2.1,
     low_temp_trigger_cnt :=
       if i.curTemp ≤ CM_LOW_TEMP_REGION ∧ i.battUv ≤ CM_LOW_TEMP_SHUTDOWN_VALTAGE
       then s.low_temp_trigger_cnt + 1 else 0,
     trickle_start_time := capTrickleStart s i,
     trickle_time := capTrickle cfg s i,
     last_query_time := cur_time,
     update_capacity_time := if changed then cur_time else r.2.2.2,
     force_set_full := r.2.2.1 }, changed)

/-- State after a sequence of worker runs. -/
def capRun (cfg : CapConfig) (s : CapState) (inputs : List CapInput) : CapState :=
  inputs.foldl (fun s i => (capStep cfg s i).1) s

/-- Invariant carried by the capacity filter: the reported per-mille value
is in range and the last accepted-update time does not lie in the future
(`update_capacity_time` is only ever set to a current time). -/
def CapInv (s : CapState) : Prop :=
  0 ≤ s.cap ∧ s.cap ≤ 1000 ∧ s.update_capacity_time ≤ s.last_query_time

theorem clampCap_bounds (x : Int) : 0 ≤ clampCap x ∧ clampCap x ≤ 1000 := by
  unfold clampCap CM_CAP_FULL_PERCENT
  split_ifs <;> omega

theorem capSwitch_bounds (cfg : CapConfig) (status : PsyStatus)
    (cap last fuel batUa battOcv : Int) (extOnline : Bool)
    (period flush trickle : Int) (force : Bool) (update cur : Int)
    (hone : 0 < cfg.cap_one_time) (hc0 : 0 ≤ cap) (hc1 : cap ≤ 1000)
    (hf0 : 0 ≤ fuel) (hf1 : fuel ≤ 1000) (hflush : 0 ≤ flush) :
    0 ≤ (capSwitch cfg status cap last fuel batUa battOcv extOnline period
        flush trickle force update cur).1 ∧
    (capSwitch cfg status cap last fuel batUa battOcv extOnline period
        flush trickle force update cur).1 ≤ 1000 := by
  have hq : 0 ≤ cdiv flush cfg.cap_one_time * 10 := by
    have h := Int.tdiv_nonneg hflush (le_of_lt hone)
    unfold cdiv
    omega
  unfold capSwitch CM_CAP_FULL_PERCENT CM_HCAP_THRESHOLD CM_HCAP_DECREASE_STEP
    CM_CAP_ONE_PERCENT at *
  cases status <;> dsimp only <;> (try split_ifs) <;> (try dsimp only) <;> omega

theorem capSwitch_update_le (cfg : CapConfig) (status : PsyStatus)
    (cap last fuel batUa battOcv : Int) (extOnline : Bool)
    (period flush trickle : Int) (force : Bool) (update cur : Int)
    (hu : update ≤ cur) :
    (capSwitch cfg status cap last fuel batUa battOcv extOnline period
        flush trickle force update cur).2.2.2 ≤ cur := by
  unfold capSwitch
  cases status <;> dsimp only <;> (try split_ifs) <;> (try dsimp only) <;> omega

theorem capStep_preserves (cfg : CapConfig) (s : CapState) (i : CapInput)
    (hone : 0 < cfg.cap_one_time) (h : CapInv s) : CapInv (capStep cfg s i).1 := by
  obtain ⟨h0, h1, h2⟩ := h
  have hcur : s.update_capacity_time ≤ capCurTime s i := by
    unfold capCurTime
    have := Int.ofNat_nonneg i.dt
    omega
  have hcf := clampCap_bounds
    (if i.curTemp ≤ CM_LOW_TEMP_REGION ∧ i.battUv ≤ CM_LOW_TEMP_SHUTDOWN_VALTAGE ∧
        s.low_temp_trigger_cnt > 1 then 0 else i.fuelCapRaw)
  have hb := capSwitch_bounds cfg (capChargerStatus s i) s.cap (capLast0 s i)
    (capFuelClamped s i) i.batUa i.battOcv i.extOnline
    (capCurTime s i - s.last_query_time) (capCurTime s i - s.update_capacity_time)
    (capTrickle cfg s i) s.force_set_full s.update_capacity_time (capCurTime s i)
    hone h0 h1 hcf.1 hcf.2 (by omega)
  have hupd := capSwitch_update_le cfg (capChargerStatus s i) s.cap (capLast0 s i)
    (capFuelClamped s i) i.batUa i.battOcv i.extOnline
    (capCurTime s i - s.last_query_time) (capCurTime s i - s.update_capacity_time)
    (capTrickle cfg s i) s.force_set_full s.update_capacity_time (capCurTime s i)
    hcur
  unfold capStep
  refine ⟨hb.1, hb.2, ?_⟩
  dsimp only
  split
  · exact le_refl _
  · exact hupd

/-- C2: for every sequence of fuel-gauge readings, charger statuses,
temperatures and elapsed times, after each run of the capacity-update step
the internally reported capacity `cm->desc->cap` (per mille) lies in
[0, 1000], provided the configured `cap_one_time` is positive and the
initial state satisfies the filter invariant (in particular an in-range
initial capacity). -/
theorem c2_reported_capacity_in_range (cfg : CapConfig) (s0 : CapState)
    (inputs : List CapInput) (hone : 0 < cfg.cap_one_time) (h0 : CapInv s0)
    (n : Nat) :
    0 ≤ (capRun cfg s0 (inputs.take n)).cap ∧
      (capRun cfg s0 (inputs.take n)).cap ≤ 1000 := by
  suffices hrun : ∀ (l : List CapInput) (s : CapState), CapInv s →
      CapInv (capRun cfg s l) by
    obtain ⟨ha, hb, -⟩ := hrun (inputs.take n) s0 h0
    exact ⟨ha, hb⟩
  intro l
  induction l with
  | nil => intro s hs; exact hs
  | cons x xs ih =>
    intro s hs
    rw [capRun, List.foldl_cons]
    exact ih (capStep cfg s x).1 (capStep_preserves cfg s x hone hs)

/-- C2 witness: a five-tick trace (charging, full with external power,
discharging, low-temperature, long sleep) from a mid-range initial state
stays in range. -/
theorem c2_reported_capacity_in_range_witness :
    0 ≤ (capRun ⟨30, 1500, 4350000, 100000⟩
        ⟨500, 600, 0, 1000, 0, 1000, 1000, false⟩
        (List.take 5
          [⟨10, 4000000, 4010000, 300000, 620, 250, false, true, true⟩,
           ⟨10, 4360000, 4360000, 100000, 800, 250, true, false, true⟩,
           ⟨10, 3900000, 3910000, -200000, 450, 250, false, false, false⟩,
           ⟨10, 3100000, 3110000, -200000, 300, 90, false, false, false⟩,
           ⟨100000, 3900000, 3910000, -200000, 100, 250, false, false,
             false⟩])).cap ∧
      (capRun ⟨30, 1500, 4350000, 100000⟩
        ⟨500, 600, 0, 1000, 0, 1000, 1000, false⟩
        (List.take 5
          [⟨10, 4000000, 4010000, 300000, 620, 250, false, true, true⟩,
           ⟨10, 4360000, 4360000, 100000, 800, 250, true, false, true⟩,
           ⟨10, 3900000, 3910000, -200000, 450, 250, false, false, false⟩,
           ⟨10, 3100000, 3110000, -200000, 300, 90, false, false, false⟩,
           ⟨100000, 3900000, 3910000, -200000, 100, 250, false, false,
             false⟩])).cap ≤ 1000 :=
  c2_reported_capacity_in_range ⟨30, 1500, 4350000, 100000⟩
    ⟨500, 600, 0, 1000, 0, 1000, 1000, false⟩
    [⟨10, 4000000, 4010000, 300000, 620, 250, false, true, true⟩,
     ⟨10, 4360000, 4360000, 100000, 800, 250, true, false, true⟩,
     ⟨10, 3900000, 3910000, -200000, 450, 250, false, false, false⟩,
     ⟨10, 3100000, 3110000, -200000, 300, 90, false, false, false⟩,
     ⟨100000, 3900000, 3910000, -200000, 100, 250, false, false, false⟩]
    (by decide) (by exact ⟨by decide, by decide, by decide⟩) 5

/-- C6 counterexample: charger status Full with external power online,
previous reported value 500 ‰ and clamped fuel-gauge SOC 800 ‰ ≠ 1000 ‰.
The claim says the new reported value is set to 1000; the code first
forces the SOC to 1000 and then still applies the `c_prev + 1` limit
(the two ifs of lines 4328-4334 are sequential, not exclusive), so the
new reported value is 501. -/
theorem c6_full_capacity_counterexample :
    (capStep ⟨30, 1500, 4350000, 100000⟩ ⟨500, 600, 0, 1000, 0, 1000, 1000, false⟩
        ⟨10, 4000000, 4360000, 100000, 800, 250, true, false, true⟩).1.cap = 501 ∧
    capFuelClamped ⟨500, 600, 0, 1000, 0, 1000, 1000, false⟩
        ⟨10, 4000000, 4360000, 100000, 800, 250, true, false, true⟩ = 800 ∧
    (800 : Int) ≠ 1000 ∧
    (capStep ⟨30, 1500, 4350000, 100000⟩ ⟨500, 600, 0, 1000, 0, 1000, 1000, false⟩
        ⟨10, 4000000, 4360000, 100000, 800, 250, true, false, true⟩).1.cap ≠ 1000 := by
  decide

/-- C6 amended: when the charger status is Full and external power is
online, the clamped SOC is first forced to 1000 whenever it differs, and
the `previous + 1` limit is then applied in every case (not only when the
SOC was already 1000), so the new reported value is
`min (c_prev + 1) 1000`. -/
theorem c6_full_capacity_amended (cfg : CapConfig) (s : CapState) (i : CapInput)
    (hst : capChargerStatus s i = .full) (hext : i.extOnline = true)
    (h0 : 0 ≤ s.cap) (h1 : s.cap ≤ 1000) :
    (capStep cfg s i).1.cap = if s.cap < 1000 then s.cap + 1 else 1000 := by
  unfold capStep
  dsimp only
  rw [hst]
  unfold capSwitch CM_CAP_FULL_PERCENT
  dsimp only
  split_ifs <;> simp_all <;> omega

/-- C6 amended witness: at the counterexample input the new value is
`500 + 1 = 501`. -/
theorem c6_full_capacity_amended_witness :
    (capStep ⟨30, 1500, 4350000, 100000⟩ ⟨500, 600, 0, 1000, 0, 1000, 1000, false⟩
        ⟨10, 4000000, 4360000, 100000, 800, 250, true, false, true⟩).1.cap =
      if (500 : Int) < 1000 then 500 + 1 else 1000 :=
  c6_full_capacity_amended ⟨30, 1500, 4350000, 100000⟩
    ⟨500, 600, 0, 1000, 0, 1000, 1000, false⟩
    ⟨10, 4000000, 4360000, 100000, 800, 250, true, false, true⟩
    (by decide) rfl (by decide) (by decide)

/-- The POWER_SUPPLY_PROP_CAPACITY case of `charger_get_property`
(lines 2629-2640): with a battery present, the reported per-mille value is
rounded to a percent with `DIV_ROUND_CLOSEST(cap, 10)` and clamped to
[0, 100]; without a battery 100 is assumed. -/
def charger_get_capacity (battPresent : Bool) (cap : Int) : Int :=
  if !battPresent then 100
  else
    let v := divRoundClosest10 cap
    if v > 100 then 100
    else if v < 0 then 0
    else v

theorem changed_flag_iff (x y : Int) :
    ((if x ≠ y ∧ divRoundClosest10 x ≠ divRoundClosest10 y then true else false)
        = true) ↔
      divRoundClosest10 x ≠ divRoundClosest10 y := by
  split_ifs with h
  · simp only [true_iff]
    exact h.2
  · simp only [Bool.false_eq_true, false_iff, not_not]
    by_contra hne
    exact h ⟨fun heq => hne (by rw [heq]), hne⟩

/-- C7: the `power_supply_changed` notification of the capacity-update
step fires exactly when the new per-mille value rounds (nearest, `x/10`)
to a different whole percent than the previously reported per-mille
value, and (with a battery present) the published CAPACITY property is
the reported per-mille value rounded to a percent and clamped to
[0, 100]. -/
theorem c7_capacity_change_resolution (cfg : CapConfig) (s : CapState)
    (i : CapInput) :
    ((capStep cfg s i).2 = true ↔
      divRoundClosest10 (capStep cfg s i).1.cap ≠ divRoundClosest10 s.cap) ∧
    (∀ cap : Int,
      charger_get_capacity true cap = max 0 (min 100 (divRoundClosest10 cap))) := by
  constructor
  · unfold capStep
    dsimp only
    exact changed_flag_iff _ s.cap
  · intro cap
    unfold charger_get_capacity
    dsimp only
    split_ifs <;> simp_all <;> omega

end ChargerManager
